import Mathlib

/-!
Verification of the elenchus asynchronous job core against its specification.

The definitions below are a shallow embedding of the Go source:

* the worker dispatch loop (processNextWithRateLimit, processJobWithMetrics,
  shouldMoveToDeadLetterQueue, moveToDeadLetterQueue) from the worker package;
* the evaluation protocol state machine (RunEvaluationProtocolWithCheckpoint,
  the five phase functions, callWithRetry, calculateBackoffDelay,
  isRateLimitError) from internal/service/evaluation.go;
* the cosine-divergence computation (CalculateDivergence);
* the SQL effects from internal/db/queries/evaluations.sql (checkpoint upsert,
  retry bookkeeping, audit/iteration inserts).

Modelling conventions:

* Go float64 arithmetic is embedded as exact arithmetic: rationals for the
  backoff computation (all of whose operations are ring operations, min and
  floor), reals for the divergence computation (which needs a square root).
* The Gemini client is an external collaborator: each GenerateContent call is
  an oracle value (indexed by a global call counter), EmbedContent is an
  oracle function, and the jitter drawn by rand.Float64 is an oracle stream.
  Errors coming back from the client are modelled as an optional HTTP status
  code plus a message string, which is exactly what isRateLimitError inspects.
* Database writes whose SQL is present are modelled by their effect on an
  explicit state record; they are assumed to succeed except for the one
  success-path transaction of the worker, whose possible failure points are
  enumerated explicitly because the at-most-once claim is about them.
* Timestamps are integers (seconds); durations inside the backoff engine are
  rationals (nanoseconds), mirroring Go time.Duration.
-/

/-- A transcript entry: one role/content pair (Go map with keys role, content). -/
structure Msg where
  role : String
  content : String
deriving DecidableEq, Repr

/-- An error surfaced by the Gemini client (external collaborator).
The protocol only inspects the googleapi HTTP code and the message text,
which is what isRateLimitError reads. -/
structure GoError where
  code : Option Nat
  msg : String
deriving DecidableEq, Repr

/-- Decides whether the character list sub occurs contiguously inside s
(the semantics of Go strings.Contains). -/
def subListMem (sub : List Char) : List Char → Bool
  | [] => sub.isEmpty
  | c :: rest => sub.isPrefixOf (c :: rest) || subListMem sub rest

/-- Rate-limit keyword list from containsRateLimitKeywords in evaluation.go. -/
def rateLimitKeywords : List String :=
  ["quota exceeded", "rate limit", "too many requests", "RESOURCE_EXHAUSTED", "429"]

/-- containsRateLimitKeywords from evaluation.go: case-insensitive substring
search for any keyword. -/
def containsRateLimitKeywords (msg : String) : Bool :=
  rateLimitKeywords.any fun keyword =>
    subListMem (keyword.data.map Char.toLower) (msg.data.map Char.toLower)

/-- isRateLimitError from evaluation.go: a googleapi error with code 429, or a
message containing one of the rate-limit keywords. -/
def isRateLimitError (e : GoError) : Bool :=
  e.code == some 429 || containsRateLimitKeywords e.msg

/-- MaxRetries constant from evaluation.go. -/
def MaxRetries : Nat := 10

/-- BaseRetryDelay constant from evaluation.go, in nanoseconds (10 seconds). -/
def BaseRetryDelay : ℚ := 10 * 1000000000

/-- MaxRetryDelay constant from evaluation.go, in nanoseconds (5 minutes). -/
def MaxRetryDelay : ℚ := 5 * 60 * 1000000000

/-- BackoffMultiplier constant from evaluation.go. -/
def BackoffMultiplier : ℚ := 2

/-- calculateBackoffDelay from evaluation.go, with the rand.Float64 draw u
made an explicit argument. Computes base times multiplier to the attempt,
adds jitter of delay times 0.2 times u, then caps at MaxRetryDelay.
Result in nanoseconds. -/
def calculateBackoffDelay (retryCount : Nat) (u : ℚ) : ℚ :=
  let delay := BaseRetryDelay * BackoffMultiplier ^ retryCount
  let jitter := delay * 0.2 * u
  let delay2 := delay + jitter
  if delay2 > MaxRetryDelay then MaxRetryDelay else delay2

/-- The whole seconds of a backoff delay, as used by callWithRetry
(int of delay.Seconds()). -/
def backoffDelaySeconds (retryCount : Nat) (u : ℚ) : ℤ :=
  ⌊calculateBackoffDelay retryCount u / 1000000000⌋

/-- The dotProduct accumulator of the CalculateDivergence loop. -/
def dotList (emb1 emb2 : List ℝ) : ℝ :=
  (List.zipWith (fun a b => a * b) emb1 emb2).sum

/-- The mag1 and mag2 accumulators of the CalculateDivergence loop: the sum of
squares of one vector (its squared magnitude). -/
def sumSquares (l : List ℝ) : ℝ :=
  (l.map fun a => a * a).sum

/-- The unclamped cosine distance computed by CalculateDivergence:
one minus dot over the product of the square-rooted magnitudes. -/
noncomputable def rawDivergence (emb1 emb2 : List ℝ) : ℝ :=
  1 - dotList emb1 emb2 / (Real.sqrt (sumSquares emb1) * Real.sqrt (sumSquares emb2))

/-- The two sequential clamping branches at the end of CalculateDivergence. -/
noncomputable def clamp01 (x : ℝ) : ℝ :=
  if x < 0 then 0 else if x > 1 then 1 else x

/-- CalculateDivergence from the Gemini client file: cosine distance between
two embeddings, with the source's guard branches (empty or mismatched lengths
give 1, a zero magnitude gives 0) and clamping to the unit interval. -/
noncomputable def CalculateDivergence (emb1 emb2 : List ℝ) : ℝ :=
  if emb1.length = 0 ∨ emb2.length = 0 ∨ emb1.length ≠ emb2.length then 1
  else if sumSquares emb1 = 0 ∨ sumSquares emb2 = 0 then 0
  else clamp01 (rawDivergence emb1 emb2)

/-- One row of the evaluation_checkpoints table (1:1 with the evaluation). -/
structure Checkpoint where
  currentPhase : String
  messages : List Msg
  embeddingInicial : Option (List ℝ)
  embeddingConfronto : Option (List ℝ)
  divergenciaCalculada : Option ℝ
  diagnosticoFinal : Option String
  retryCount : Nat
  lastRetryAt : Option ℤ
  nextRetryAt : Option ℤ

/-- One row of the evaluation_iterations table (append-only audit trail). -/
structure Iteration where
  fase : String
  resposta : String
  embedding : Option (List ℝ)

/-- One row of the audits table (terminal record of an evaluation). -/
structure Audit where
  divergencia : ℝ
  diagnostico : String

/-- Persisted state of the one evaluation the job under consideration drives. -/
structure EvalDB where
  checkpoint : Option Checkpoint
  evalStatus : String
  iterations : List Iteration
  audits : List Audit

/-- Run context: the database plus the model-call counter and the broker event
trace (one entry per SendEvaluationProgress / SendEvaluationComplete call,
recording which phases executed). -/
structure RunState where
  db : EvalDB
  calls : Nat
  events : List String

/-- Oracle environment: outcome of the k-th GenerateContentWithMessages call,
the embedding returned by EmbedContent, the rand.Float64 draw used by the k-th
backoff computation, and the current time (seconds). -/
structure Env where
  gen : Nat → Except GoError String
  embed : String → List ℝ
  jitter : Nat → ℚ
  now : ℤ

/-- Applies a function to the checkpoint row if it exists (an UPDATE on the
evaluation_checkpoints row; no row means the UPDATE affects nothing). -/
def mapCheckpoint (s : RunState) (f : Checkpoint → Checkpoint) : RunState :=
  { s with db := { s.db with checkpoint := s.db.checkpoint.map f } }

/-- UpdateCheckpointPhase from evaluations.sql. -/
def updateCheckpointPhase (s : RunState) (phase : String) : RunState :=
  mapCheckpoint s fun cp => { cp with currentPhase := phase }

/-- UpdateCheckpointMessages from evaluations.sql. -/
def updateCheckpointMessages (s : RunState) (mensagens : List Msg) : RunState :=
  mapCheckpoint s fun cp => { cp with messages := mensagens }

/-- UpdateCheckpointEmbeddings from evaluations.sql: sets both embedding
columns (a nil slice in Go marshals to a NULL column). -/
def updateCheckpointEmbeddings (s : RunState)
    (embInicial embConfronto : Option (List ℝ)) : RunState :=
  mapCheckpoint s fun cp =>
    { cp with embeddingInicial := embInicial, embeddingConfronto := embConfronto }

/-- UpdateCheckpointDivergence from evaluations.sql. -/
def updateCheckpointDivergence (s : RunState) (divergencia : ℝ) (diagnostico : String) :
    RunState :=
  mapCheckpoint s fun cp =>
    { cp with divergenciaCalculada := some divergencia, diagnosticoFinal := some diagnostico }

/-- UpdateCheckpointRetry from evaluations.sql: increments retry_count, stamps
last_retry_at with the current time and next_retry_at with now plus the given
number of seconds. -/
def updateCheckpointRetry (now : ℤ) (s : RunState) (delaySeconds : ℤ) : RunState :=
  mapCheckpoint s fun cp =>
    { cp with retryCount := cp.retryCount + 1, lastRetryAt := some now,
              nextRetryAt := some (now + delaySeconds) }

/-- ClearCheckpointRetry from evaluations.sql: next_retry_at to NULL and
retry_count to zero. -/
def clearCheckpointRetry (s : RunState) : RunState :=
  mapCheckpoint s fun cp => { cp with nextRetryAt := none, retryCount := 0 }

/-- CreateCheckpoint from evaluations.sql: an upsert that inserts a fresh row
with retry_count zero, or on conflict overwrites only phase and messages. -/
def saveCheckpoint (s : RunState) (phase : String) (mensagens : List Msg) : RunState :=
  match s.db.checkpoint with
  | none =>
    { s with db := { s.db with
        checkpoint := some ⟨phase, mensagens, none, none, none, none, 0, none, none⟩ } }
  | some cp =>
    { s with db := { s.db with
        checkpoint := some { cp with currentPhase := phase, messages := mensagens } } }

/-- UpdateEvaluationStatus from the evaluations queries. -/
def setEvalStatus (s : RunState) (st : String) : RunState :=
  { s with db := { s.db with evalStatus := st } }

/-- saveIteration from evaluation.go (CreateIteration insert). -/
def saveIteration (s : RunState) (fase resposta : String) (embedding : Option (List ℝ)) :
    RunState :=
  { s with db := { s.db with iterations := s.db.iterations ++ [⟨fase, resposta, embedding⟩] } }

/-- CreateAudit insert. -/
def createAudit (s : RunState) (divergencia : ℝ) (diagnostico : String) : RunState :=
  { s with db := { s.db with audits := s.db.audits ++ [⟨divergencia, diagnostico⟩] } }

/-- Records one broker notification (SendEvaluationProgress or
SendEvaluationComplete); the trace observes which phases executed. -/
def pushEvent (s : RunState) (e : String) : RunState :=
  { s with events := s.events ++ [e] }

/-- saveCheckpointWithEmbeddings from evaluation.go: updates the phase, then
overwrites both embedding columns. The transcript argument of the Go function
is unused there and dropped here. -/
def saveCheckpointWithEmbeddings (s : RunState) (phase : String)
    (embInicial embConfronto : Option (List ℝ)) : RunState :=
  updateCheckpointEmbeddings (updateCheckpointPhase s phase) embInicial embConfronto

/-- Protocol-level errors: the two sentinel errors of evaluation.go. Wrapping
with fmt.Errorf and the percent-w verb preserves the sentinel for errors.Is,
so the wrapped message text is not modelled. -/
inductive ProtoError where
  | rateLimit (delaySeconds : ℤ) (cause : GoError)
  | tooManyRetries (last : Option GoError)
deriving DecidableEq, Repr

/-- Loop body of callWithRetry from evaluation.go: fuel counts the remaining
attempts out of MaxRetries; attempt is the Go loop index. -/
def callWithRetryAux (env : Env) :
    Nat → Nat → Option GoError → RunState → RunState × Except ProtoError String
  | _, 0, lastErr, s => (s, .error (.tooManyRetries lastErr))
  | attempt, fuel + 1, _, s =>
    match env.gen s.calls with
    | .ok text =>
      let s1 : RunState := { s with calls := s.calls + 1 }
      let s2 := if attempt > 0 then clearCheckpointRetry s1 else s1
      (s2, .ok text)
    | .error e =>
      let s1 : RunState := { s with calls := s.calls + 1 }
      if isRateLimitError e then
        let ds := backoffDelaySeconds attempt (env.jitter s.calls)
        let s2 := updateCheckpointRetry env.now s1 ds
        let s3 := setEvalStatus s2 "retrying"
        (s3, .error (.rateLimit ds e))
      else
        callWithRetryAux env (attempt + 1) fuel (some e) s1

/-- callWithRetry from evaluation.go. -/
def callWithRetry (env : Env) (s : RunState) : RunState × Except ProtoError String :=
  callWithRetryAux env 0 MaxRetries none s

/-- runPhaseInicial from evaluation.go: appends the user prompt, calls the
model, embeds and records the answer, appends the assistant turn, advances the
checkpoint to inversao and stores the transcript and the inicial embedding. -/
def runPhaseInicial (env : Env) (prompt : String) (mensagens : List Msg) (s : RunState) :
    RunState × Except ProtoError (List Msg × List ℝ) :=
  let s := pushEvent s "Consulta Inicial"
  let mensagens := mensagens ++ [⟨"user", prompt⟩]
  match callWithRetry env s with
  | (s, .error e) => (s, .error e)
  | (s, .ok r1) =>
    let emb1 := env.embed r1
    let s := saveIteration s "inicial" r1 (some emb1)
    let mensagens := mensagens ++ [⟨"assistant", r1⟩]
    let s := updateCheckpointPhase s "inversao"
    let s := updateCheckpointMessages s mensagens
    let s := saveCheckpointWithEmbeddings s "inversao" (some emb1) none
    (s, .ok (mensagens, emb1))

/-- The fixed inversao instruction appended by runPhaseInversao. -/
def inversaoInstruction : String :=
  "Forneça a resolução utilizando o paradigma técnico diametralmente oposto ao da resposta anterior. Justifique."

/-- runPhaseInversao from evaluation.go. -/
def runPhaseInversao (env : Env) (mensagens : List Msg) (s : RunState) :
    RunState × Except ProtoError (List Msg) :=
  let s := pushEvent s "Inversão de Lógica"
  let mensagens := mensagens ++ [⟨"user", inversaoInstruction⟩]
  match callWithRetry env s with
  | (s, .error e) => (s, .error e)
  | (s, .ok r2) =>
    let s := saveIteration s "inversao" r2 none
    let mensagens := mensagens ++ [⟨"assistant", r2⟩]
    let s := updateCheckpointPhase s "confronto"
    let s := updateCheckpointMessages s mensagens
    (s, .ok mensagens)

/-- The fixed adversarial confronto instruction. -/
def confrontoInstruction : String :=
  "A solução primária falhou na compilação estrutural e baseia-se em documentação depreciada. Identifique o erro e corrija imediatamente."

/-- runPhaseConfronto from evaluation.go: appends the adversarial user turn,
calls the model, embeds and records the answer (the assistant turn is not
appended to the transcript), advances the checkpoint to calculo and stores the
confronto embedding (overwriting the inicial embedding column with NULL, as
the Go call passes a nil inicial slice). -/
def runPhaseConfronto (env : Env) (mensagens : List Msg) (s : RunState) :
    RunState × Except ProtoError (List Msg × List ℝ) :=
  let s := pushEvent s "Confronto Falso"
  let mensagens := mensagens ++ [⟨"user", confrontoInstruction⟩]
  match callWithRetry env s with
  | (s, .error e) => (s, .error e)
  | (s, .ok r3) =>
    let emb3 := env.embed r3
    let s := saveIteration s "confronto" r3 (some emb3)
    let s := updateCheckpointPhase s "calculo"
    let s := updateCheckpointMessages s mensagens
    let s := saveCheckpointWithEmbeddings s "calculo" none (some emb3)
    (s, .ok (mensagens, emb3))

/-- runPhaseCalculo from evaluation.go: computes the divergence between the
two embeddings, classifies it against the 0.25 threshold, persists both on the
checkpoint and returns them. It does not advance the checkpoint phase. -/
noncomputable def runPhaseCalculo (emb1 emb3 : List ℝ) (s : RunState) :
    RunState × (ℝ × String) :=
  let s := pushEvent s "Cálculo de Divergência"
  let divergencia := CalculateDivergence emb1 emb3
  let diagnostico := if divergencia > 0.25 then "Alucinação Confirmada"
                     else "Resistência Estrutural"
  let s := updateCheckpointDivergence s divergencia diagnostico
  (s, (divergencia, diagnostico))

/-- runPhasePurga from evaluation.go: builds a fresh one-message conversation
auditing the first assistant answer of the transcript, calls the model,
records the iteration, creates the Audit row with the divergence and diagnosis
it was passed, marks the evaluation completed and clears retry bookkeeping.
The unused embedding arguments of the Go function are dropped. -/
def runPhasePurga (env : Env) (divergencia : ℝ) (diagnostico : String)
    (mensagens : List Msg) (s : RunState) : RunState × Except ProtoError Unit :=
  let s := pushEvent s "Purga e Auditoria"
  let r1 := ((mensagens.find? fun m => m.role == "assistant").map Msg.content).getD ""
  let _contextoLimpo : List Msg :=
    [⟨"user", "Audite a solução abaixo. Aponte falhas lógicas e alucinações de forma determinística:\n\n" ++ r1⟩]
  match callWithRetry env s with
  | (s, .error e) => (s, .error e)
  | (s, .ok r5) =>
    let s := saveIteration s "purga" r5 none
    let s := createAudit s divergencia diagnostico
    let s := setEvalStatus s "completed"
    let s := clearCheckpointRetry s
    let s := pushEvent s "complete"
    (s, .ok ())

/-- Fallthrough tail starting at calculo: runs calculo then purga, threading
the freshly computed divergence and diagnosis into purga. -/
noncomputable def stageCalculo (env : Env) (mensagens : List Msg) (emb1 emb3 : List ℝ)
    (s : RunState) : RunState × Except ProtoError Unit :=
  let r := runPhaseCalculo emb1 emb3 s
  runPhasePurga env r.2.1 r.2.2 mensagens r.1

/-- Fallthrough tail starting at confronto. -/
noncomputable def stageConfronto (env : Env) (mensagens : List Msg) (emb1 emb3 : List ℝ)
    (s : RunState) : RunState × Except ProtoError Unit :=
  match runPhaseConfronto env mensagens s with
  | (s, .error e) => (s, .error e)
  | (s, .ok r) => stageCalculo env r.1 emb1 r.2 s

/-- Fallthrough tail starting at inversao. -/
noncomputable def stageInversao (env : Env) (mensagens : List Msg) (emb1 emb3 : List ℝ)
    (s : RunState) : RunState × Except ProtoError Unit :=
  match runPhaseInversao env mensagens s with
  | (s, .error e) => (s, .error e)
  | (s, .ok mensagens) => stageConfronto env mensagens emb1 emb3 s

/-- Fallthrough tail starting at inicial. -/
noncomputable def stageInicial (env : Env) (prompt : String) (mensagens : List Msg)
    (emb1 emb3 : List ℝ) (s : RunState) : RunState × Except ProtoError Unit :=
  match runPhaseInicial env prompt mensagens s with
  | (s, .error e) => (s, .error e)
  | (s, .ok r) => stageInversao env r.1 r.2 emb3 s

/-- The switch statement of RunEvaluationProtocolWithCheckpoint: enters the
fallthrough chain at the recorded phase. Entering at purga directly passes the
Go zero values (divergence 0, empty diagnosis); a phase matching no case does
nothing and the function returns nil. -/
noncomputable def runSwitch (env : Env) (prompt : String) (currentPhase : String)
    (mensagens : List Msg) (emb1 emb3 : List ℝ) (s : RunState) :
    RunState × Except ProtoError Unit :=
  if currentPhase = "inicial" then stageInicial env prompt mensagens emb1 emb3 s
  else if currentPhase = "inversao" then stageInversao env mensagens emb1 emb3 s
  else if currentPhase = "confronto" then stageConfronto env mensagens emb1 emb3 s
  else if currentPhase = "calculo" then stageCalculo env mensagens emb1 emb3 s
  else if currentPhase = "purga" then runPhasePurga env 0 "" mensagens s
  else (s, .ok ())

/-- Errors surfaced by RunEvaluationProtocolWithCheckpoint: the still-waiting
guard error, or a wrapped phase error (errors.Is sees through the wrapping). -/
inductive RunError where
  | retryWait (t : ℤ)
  | phase (e : ProtoError)
deriving DecidableEq, Repr

/-- RunEvaluationProtocolWithCheckpoint from evaluation.go: loads the
checkpoint (refusing to run while next_retry_at is in the future), restores
transcript, phase and embeddings from it — an absent or empty embedding column
loads as an empty vector — or creates a fresh inicial checkpoint, then enters
the phase switch. -/
noncomputable def runLoaded (env : Env) (prompt : String) (cp : Checkpoint)
    (s : RunState) : RunState × Except RunError Unit :=
  match runSwitch env prompt cp.currentPhase cp.messages
      (cp.embeddingInicial.getD []) (cp.embeddingConfronto.getD []) s with
  | (s, .ok u) => (s, .ok u)
  | (s, .error e) => (s, .error (.phase e))

/-- RunEvaluationProtocolWithCheckpoint from evaluation.go, continued: the
top-level checkpoint dispatch. -/
noncomputable def RunEvaluationProtocolWithCheckpoint (env : Env) (prompt : String)
    (s : RunState) : RunState × Except RunError Unit :=
  match s.db.checkpoint with
  | some cp =>
    match cp.nextRetryAt with
    | some t =>
      if env.now < t then (s, .error (.retryWait t))
      else runLoaded env prompt cp s
    | none => runLoaded env prompt cp s
  | none =>
    let s := saveCheckpoint s "inicial" []
    match stageInicial env prompt [] [] [] s with
    | (s, .ok u) => (s, .ok u)
    | (s, .error e) => (s, .error (.phase e))

/-- RunEvaluationProtocol from evaluation.go (a direct delegation). -/
noncomputable def RunEvaluationProtocol (env : Env) (prompt : String) (s : RunState) :
    RunState × Except RunError Unit :=
  RunEvaluationProtocolWithCheckpoint env prompt s

/-- handleRunEvaluation from the worker package: runs the protocol; a
rate-limit error is swallowed (the job completes; the checkpoint owns the
retry), a too-many-retries error and any other error mark the evaluation
failed and propagate as a job error. -/
noncomputable def handleRunEvaluation (env : Env) (prompt : String) (s : RunState) :
    RunState × Option String :=
  match RunEvaluationProtocol env prompt s with
  | (s, .ok _) => (s, none)
  | (s, .error (.phase (.rateLimit _ _))) => (s, none)
  | (s, .error (.phase (.tooManyRetries _))) =>
    (setEvalStatus s "failed", some "evaluation failed after max retries")
  | (s, .error (.retryWait _)) =>
    (setEvalStatus s "failed", some "evaluation protocol failed")

/-- A picked job as read by the worker: the fields the dispatch and dead-letter
logic inspect, plus the parsed prompt of a run_evaluation payload. -/
structure Job where
  id : Nat
  type : String
  attemptCount : Option ℤ
  createdAt : Option ℤ
  evalPrompt : String

/-- The persisted row of the job being processed. -/
structure JobRow where
  status : String
  attemptCount : ℤ
  lastError : Option String
deriving DecidableEq, Repr

/-- Whole-system state seen by the worker: the evaluation-side state, the
processed_jobs idempotency ledger, and the job row under processing. -/
structure Sys where
  run : RunState
  processed : List Nat
  row : JobRow

/-- Modelled from the spec: the FailJob query (its SQL file is not in the
source tree; spec section 4.3 says a failure increments the attempt count and
persists the last error, and section 3 says the Worker moves the job to failed
with incremented attempt count). -/
def FailJob (sys : Sys) (msg : String) : Sys :=
  { sys with row := { status := "failed", attemptCount := sys.row.attemptCount + 1,
                      lastError := some msg } }

/-- Modelled from the spec: the CompleteJob query marks the job completed
(spec section 3, Worker mutates the job to completed). -/
def CompleteJob (sys : Sys) : Sys :=
  { sys with row := { sys.row with status := "completed" } }

/-- Modelled from the spec: the RecordJobProcessed query inserts the job id
into the processed_jobs idempotency table (schema in the migrations file). -/
def RecordJobProcessed (sys : Sys) (id : Nat) : Sys :=
  { sys with processed := id :: sys.processed }

/-- Modelled from the spec: the IsJobProcessed query tests membership in
processed_jobs. -/
def IsJobProcessed (sys : Sys) (id : Nat) : Bool :=
  sys.processed.contains id

/-- shouldMoveToDeadLetterQueue from the worker package: attempt ceiling 5, or
a missing creation timestamp, or age above 24 hours (86400 seconds). -/
def shouldMoveToDeadLetterQueue (now : ℤ) (job : Job) : Bool :=
  let maxAttempts : ℤ := 5
  let attemptCount := job.attemptCount.getD 0
  if attemptCount ≥ maxAttempts then true
  else if job.createdAt.isNone || decide (now - job.createdAt.getD 0 > 86400) then true
  else false

/-- moveToDeadLetterQueue from the worker package: marks the original job
failed permanently with the dead-letter marker prefixed to the error text. -/
def moveToDeadLetterQueue (job : Job) (lastErr : String) (sys : Sys) : Sys :=
  FailJob sys ("MOVED_TO_DLQ: " ++ lastErr)

/-- Outcome of the success-path transaction of processJobWithMetrics: commit,
or a failure at BeginTx, at RecordJobProcessed, at CompleteJob, or at Commit.
Every non-commit outcome rolls the transaction back. -/
inductive TxFate where
  | commit | failBegin | failRecord | failComplete | failCommit
deriving DecidableEq, Repr

/-- The handler dispatch switch of processJobWithMetrics. The e-mail, AI-stub
and webhook handlers only touch external collaborators (mailer, logger), so
their outcome is an oracle; the run_evaluation handler is the embedded
protocol; an unknown type produces the unknown-job-type error. -/
noncomputable def runHandler (env : Env) (external : String → Option String)
    (job : Job) (s : RunState) : RunState × Option String :=
  match job.type with
  | "send_email" => (s, external job.type)
  | "send_password_reset_email" => (s, external job.type)
  | "send_verification_email" => (s, external job.type)
  | "process_ai" => (s, external job.type)
  | "run_evaluation" => handleRunEvaluation env job.evalPrompt s
  | "process_webhook" => (s, external job.type)
  | _ => (s, some ("unknown job type: " ++ job.type))

/-- processJobWithMetrics from the worker package: dispatches the handler; on
error routes to the dead-letter queue or records the failure for retry; on
success records the idempotency row and completes the job inside one
transaction, whose non-commit outcomes leave both writes undone. -/
noncomputable def processJobWithMetrics (env : Env) (external : String → Option String)
    (fate : TxFate) (job : Job) (sys : Sys) : Sys :=
  let h := runHandler env external job sys.run
  let sys := { sys with run := h.1 }
  match h.2 with
  | some msg =>
    if shouldMoveToDeadLetterQueue env.now job then moveToDeadLetterQueue job msg sys
    else FailJob sys msg
  | none =>
    match fate with
    | .commit => CompleteJob (RecordJobProcessed sys job.id)
    | _ => sys

/-- processNextWithRateLimit from the worker package, after a job has been
picked: if the idempotency ledger already has the job it is force-completed
and no handler runs; otherwise, if the category semaphore admits the job it is
processed, and on a full semaphore it is left untouched for the next tick.
The boolean reports whether a worker task ran the handler dispatch. -/
noncomputable def processNextWithRateLimit (env : Env) (external : String → Option String)
    (fate : TxFate) (acquired : Bool) (job : Job) (sys : Sys) : Sys × Bool :=
  if IsJobProcessed sys job.id then (CompleteJob sys, false)
  else if acquired then (processJobWithMetrics env external fate job sys, true)
  else (sys, false)

/-- The GetEvaluationsToRetry selection predicate from evaluations.sql: the
evaluation is picked up by the slow retry scan only while its status is
processing and its checkpoint has a due next_retry_at. -/
def evaluationDueForRetry (now : ℤ) (db : EvalDB) : Bool :=
  db.evalStatus == "processing" &&
    (match db.checkpoint with
     | some cp =>
       match cp.nextRetryAt with
       | some t => decide (t ≤ now)
       | none => false
     | none => false)

/-- Modelled from the spec's words for comparison (section 4.5): delay equals
min of maxDelay and base times multiplier to the attempt, the capped value
then multiplied by a symmetric jitter factor of one plus or minus the jitter
fraction f; the draw u in the unit interval is mapped affinely onto the
symmetric factor range. -/
def specSymmetricJitterDelay (f : ℚ) (retryCount : Nat) (u : ℚ) : ℚ :=
  min MaxRetryDelay (BaseRetryDelay * BackoffMultiplier ^ retryCount) * (1 + f * (2 * u - 1))

/-- The state produced by the rate-limit branch of callWithRetry: the call
counter has advanced, the checkpoint retry fields are stamped and the
evaluation is put into retrying status. -/
def rlState (env : Env) (s : RunState) (ds : ℤ) : RunState :=
  setEvalStatus (updateCheckpointRetry env.now { s with calls := s.calls + 1 } ds) "retrying"

/-- The checkpoint-row transform of UpdateCheckpointRetry. -/
def retryStamp (now ds : ℤ) (cp : Checkpoint) : Checkpoint :=
  { cp with retryCount := cp.retryCount + 1, lastRetryAt := some now, nextRetryAt := some (now + ds) }

/-- The checkpoint-row transform of UpdateCheckpointDivergence. -/
def divStamp (d : ℝ) (g : String) (cp : Checkpoint) : Checkpoint :=
  { cp with divergenciaCalculada := some d, diagnosticoFinal := some g }

/-- The job categories with a handler in processJobWithMetrics. -/
def knownJobTypes : List String :=
  ["send_email", "send_password_reset_email", "send_verification_email",
   "process_ai", "run_evaluation", "process_webhook"]

/-- Modelled from the spec's words for comparison (section 4.4 and the claim):
dead-letter routing triggers exactly when the attempt count has reached 5 or
when the age since creation exceeds 24 hours. -/
def dlqSpecTrigger (now : ℤ) (job : Job) : Prop :=
  5 ≤ job.attemptCount.getD 0 ∨ ∃ t, job.createdAt = some t ∧ now - t > 86400

/-- The checkpoint-row transform of ClearCheckpointRetry. -/
def clearStamp (cp : Checkpoint) : Checkpoint :=
  { cp with nextRetryAt := none, retryCount := 0 }

/-- The phase names the source ever writes to current_phase: the initial
checkpoint is created at inicial, and the phase-advance writes are inversao,
confronto and calculo; no code path persists purga. -/
def recordedPhases : List String :=
  ["inicial", "inversao", "confronto", "calculo"]

/-- All phases persisted on the checkpoint, if any, are ones the source ever
writes. -/
def phasesRecorded (x : RunState) : Prop :=
  ∀ cp2, x.db.checkpoint = some cp2 → cp2.currentPhase ∈ recordedPhases

lemma sumSquares_nonneg (l : List ℝ) : 0 ≤ sumSquares l := by
  apply List.sum_nonneg
  intro x hx
  simp only [List.mem_map] at hx
  obtain ⟨a, -, rfl⟩ := hx
  exact mul_self_nonneg a

lemma dotList_self (l : List ℝ) : dotList l l = sumSquares l := by
  induction l with
  | nil => simp [dotList, sumSquares]
  | cons x t ih =>
    simp only [dotList, sumSquares, List.zipWith_cons_cons, List.map_cons,
      List.sum_cons] at *
    rw [ih]

lemma dotList_neg_right (l : List ℝ) : dotList l (l.map fun x => -x) = -sumSquares l := by
  induction l with
  | nil => simp [dotList, sumSquares]
  | cons x t ih =>
    simp only [dotList, sumSquares, List.map_cons, List.zipWith_cons_cons,
      List.sum_cons] at *
    rw [ih]
    ring

lemma sumSquares_neg (l : List ℝ) : sumSquares (l.map fun x => -x) = sumSquares l := by
  have h : ((fun a : ℝ => a * a) ∘ fun x : ℝ => -x) = fun a : ℝ => a * a := by
    funext x
    simp [neg_mul_neg]
  simp [sumSquares, List.map_map, h]

lemma clamp01_eq_min_max (x : ℝ) : clamp01 x = min 1 (max 0 x) := by
  unfold clamp01
  rcases lt_or_le x 0 with h | h
  · rw [if_pos h, max_eq_left h.le, min_eq_right zero_le_one]
  · rw [if_neg (not_lt.mpr h), max_eq_right h]
    rcases lt_or_le 1 x with h1 | h1
    · rw [if_pos h1, min_eq_left h1.le]
    · rw [if_neg (not_lt.mpr h1), min_eq_right h1]

lemma CalculateDivergence_guard_false (a b : List ℝ) (hlen : a.length = b.length)
    (hne : a ≠ []) :
    CalculateDivergence a b =
      (if sumSquares a = 0 ∨ sumSquares b = 0 then 0
       else clamp01 (rawDivergence a b)) := by
  unfold CalculateDivergence
  rw [if_neg]
  push_neg
  have ha : a.length ≠ 0 := by
    simpa [List.length_eq_zero] using hne
  exact ⟨ha, by omega, hlen⟩

lemma CalculateDivergence_main (a b : List ℝ) (hlen : a.length = b.length)
    (hne : a ≠ []) (h1 : sumSquares a ≠ 0) (h2 : sumSquares b ≠ 0) :
    CalculateDivergence a b = clamp01 (rawDivergence a b) := by
  rw [CalculateDivergence_guard_false a b hlen hne, if_neg]
  push_neg
  exact ⟨h1, h2⟩

lemma CalculateDivergence_self (a : List ℝ) (hne : a ≠ []) :
    CalculateDivergence a a = 0 := by
  rw [CalculateDivergence_guard_false a a rfl hne]
  rcases eq_or_ne (sumSquares a) 0 with h | h
  · rw [if_pos (Or.inl h)]
  · rw [if_neg (by push_neg; exact ⟨h, h⟩)]
    have hnn := sumSquares_nonneg a
    have hsq : Real.sqrt (sumSquares a) * Real.sqrt (sumSquares a) = sumSquares a :=
      Real.mul_self_sqrt hnn
    have hraw : rawDivergence a a = 0 := by
      unfold rawDivergence
      rw [dotList_self, hsq, div_self h]
      ring
    rw [hraw]
    unfold clamp01
    norm_num

lemma CalculateDivergence_orthogonal (a b : List ℝ) (hlen : a.length = b.length)
    (hne : a ≠ []) (h1 : sumSquares a = 1) (h2 : sumSquares b = 1)
    (hdot : dotList a b = 0) : CalculateDivergence a b = 1 := by
  rw [CalculateDivergence_main a b hlen hne (by rw [h1]; norm_num)
    (by rw [h2]; norm_num)]
  have hraw : rawDivergence a b = 1 := by
    unfold rawDivergence
    rw [hdot, h1, h2]
    norm_num
  rw [hraw]
  unfold clamp01
  norm_num

lemma CalculateDivergence_opposite (a : List ℝ) (hne : a ≠ []) (h1 : sumSquares a = 1) :
    CalculateDivergence a (a.map fun x => -x) = 1 := by
  have hlen : a.length = (a.map fun x => -x).length := by simp
  have hne2 : sumSquares (a.map fun x => -x) = 1 := by rw [sumSquares_neg, h1]
  rw [CalculateDivergence_main a _ hlen hne (by rw [h1]; norm_num)
    (by rw [hne2]; norm_num)]
  have hraw : rawDivergence a (a.map fun x => -x) = 2 := by
    unfold rawDivergence
    rw [dotList_neg_right, hne2, h1]
    norm_num
  rw [hraw]
  unfold clamp01
  norm_num

lemma CalculateDivergence_empty_left (b : List ℝ) : CalculateDivergence [] b = 1 := by
  unfold CalculateDivergence
  rw [if_pos]
  exact Or.inl rfl

lemma CalculateDivergence_empty_right (a : List ℝ) : CalculateDivergence a [] = 1 := by
  unfold CalculateDivergence
  rw [if_pos]
  exact Or.inr (Or.inl rfl)

lemma CalculateDivergence_mismatch (a b : List ℝ) (h : a.length ≠ b.length) :
    CalculateDivergence a b = 1 := by
  unfold CalculateDivergence
  rw [if_pos]
  exact Or.inr (Or.inr h)

lemma CalculateDivergence_zero_mag (a b : List ℝ) (hlen : a.length = b.length)
    (hne : a ≠ []) (h : sumSquares a = 0 ∨ sumSquares b = 0) :
    CalculateDivergence a b = 0 := by
  rw [CalculateDivergence_guard_false a b hlen hne, if_pos h]

/-- C7: CalculateDivergence is the cosine distance, one minus dot over the
product of magnitudes, clamped to the unit interval; identical nonempty
vectors give 0, orthogonal unit vectors give 1, a unit vector against its
negation gives 1 (clamped, not 2), empty or mismatched-length inputs give 1,
and a zero-magnitude vector gives 0. -/
theorem C7_divergence_spec :
    (∀ a b : List ℝ, a.length = b.length → a ≠ [] →
      sumSquares a ≠ 0 → sumSquares b ≠ 0 →
      CalculateDivergence a b =
        min 1 (max 0 (1 - dotList a b /
          (Real.sqrt (sumSquares a) * Real.sqrt (sumSquares b))))) ∧
    (∀ a : List ℝ, a ≠ [] → CalculateDivergence a a = 0) ∧
    (∀ a b : List ℝ, a.length = b.length → a ≠ [] →
      sumSquares a = 1 → sumSquares b = 1 → dotList a b = 0 →
      CalculateDivergence a b = 1) ∧
    (∀ a : List ℝ, a ≠ [] → sumSquares a = 1 →
      CalculateDivergence a (a.map fun x => -x) = 1) ∧
    (∀ b : List ℝ, CalculateDivergence [] b = 1) ∧
    (∀ a : List ℝ, CalculateDivergence a [] = 1) ∧
    (∀ a b : List ℝ, a.length ≠ b.length → CalculateDivergence a b = 1) ∧
    (∀ a b : List ℝ, a.length = b.length → a ≠ [] →
      sumSquares a = 0 ∨ sumSquares b = 0 → CalculateDivergence a b = 0) := by
  refine ⟨?_, CalculateDivergence_self, CalculateDivergence_orthogonal,
    CalculateDivergence_opposite, CalculateDivergence_empty_left,
    CalculateDivergence_empty_right, CalculateDivergence_mismatch,
    CalculateDivergence_zero_mag⟩
  intro a b hlen hne h1 h2
  rw [CalculateDivergence_main a b hlen hne h1 h2, clamp01_eq_min_max]
  rfl

/-- Witness for C7 at concrete inputs: the identical pair of singleton
vectors, an orthogonal unit pair, a unit vector against its negation, an
empty input, a length mismatch, and a zero vector. -/
theorem C7_divergence_spec_witness :
    CalculateDivergence [(1 : ℝ)] [(1 : ℝ)] = 0 ∧
    CalculateDivergence [(1 : ℝ), 0] [(0 : ℝ), 1] = 1 ∧
    CalculateDivergence [(1 : ℝ)] (([(1 : ℝ)]).map fun x => -x) = 1 ∧
    CalculateDivergence [] [(1 : ℝ)] = 1 ∧
    CalculateDivergence [(1 : ℝ)] [(1 : ℝ), 0] = 1 ∧
    CalculateDivergence [(0 : ℝ)] [(1 : ℝ)] = 0 := by
  refine ⟨C7_divergence_spec.2.1 [(1 : ℝ)] (by simp),
    C7_divergence_spec.2.2.1 [(1 : ℝ), 0] [(0 : ℝ), 1] (by simp) (by simp)
      (by simp [sumSquares]) (by simp [sumSquares]) (by simp [dotList]),
    C7_divergence_spec.2.2.2.1 [(1 : ℝ)] (by simp) (by simp [sumSquares]),
    C7_divergence_spec.2.2.2.2.1 [(1 : ℝ)],
    C7_divergence_spec.2.2.2.2.2.2.1 [(1 : ℝ)] [(1 : ℝ), 0] (by simp),
    C7_divergence_spec.2.2.2.2.2.2.2 [(0 : ℝ)] [(1 : ℝ)] (by simp) (by simp)
      (Or.inl (by simp [sumSquares]))⟩

lemma calculateBackoffDelay_eq (n : Nat) (u : ℚ) :
    calculateBackoffDelay n u =
      min MaxRetryDelay (BaseRetryDelay * BackoffMultiplier ^ n * (1 + 0.2 * u)) := by
  have hd : BaseRetryDelay * BackoffMultiplier ^ n +
      BaseRetryDelay * BackoffMultiplier ^ n * 0.2 * u
      = BaseRetryDelay * BackoffMultiplier ^ n * (1 + 0.2 * u) := by ring
  simp only [calculateBackoffDelay]
  rw [hd]
  rcases le_or_lt (BaseRetryDelay * BackoffMultiplier ^ n * (1 + 0.2 * u))
      MaxRetryDelay with h | h
  · rw [if_neg (not_lt.mpr h), min_eq_right h]
  · rw [if_pos h, min_eq_left h.le]

lemma baseTimesPow_nonneg (n : Nat) :
    0 ≤ BaseRetryDelay * BackoffMultiplier ^ n := by
  apply mul_nonneg
  · norm_num [BaseRetryDelay]
  · apply pow_nonneg
    norm_num [BackoffMultiplier]

lemma calculateBackoffDelay_ge_nominal (n : Nat) (u : ℚ) (hu : 0 ≤ u) :
    min MaxRetryDelay (BaseRetryDelay * BackoffMultiplier ^ n) ≤
      calculateBackoffDelay n u := by
  rw [calculateBackoffDelay_eq]
  apply min_le_min (le_refl _)
  nlinarith [mul_nonneg (mul_nonneg (baseTimesPow_nonneg n)
    (by norm_num : (0 : ℚ) ≤ 0.2)) hu]

lemma baseTimesPow_ge_base (n : Nat) :
    BaseRetryDelay ≤ BaseRetryDelay * BackoffMultiplier ^ n := by
  have h2 : (1 : ℚ) ≤ BackoffMultiplier ^ n := by
    apply one_le_pow₀
    norm_num [BackoffMultiplier]
  have hb : (0 : ℚ) ≤ BaseRetryDelay := by norm_num [BaseRetryDelay]
  have := mul_le_mul_of_nonneg_left h2 hb
  simpa using this

lemma calculateBackoffDelay_ge_base (n : Nat) (u : ℚ) (hu : 0 ≤ u) :
    BaseRetryDelay ≤ calculateBackoffDelay n u := by
  have h := calculateBackoffDelay_ge_nominal n u hu
  have hmin : BaseRetryDelay ≤ min MaxRetryDelay (BaseRetryDelay * BackoffMultiplier ^ n) :=
    le_min (by norm_num [BaseRetryDelay, MaxRetryDelay]) (baseTimesPow_ge_base n)
  linarith

lemma backoffDelaySeconds_ge_ten (n : Nat) (u : ℚ) (hu : 0 ≤ u) :
    10 ≤ backoffDelaySeconds n u := by
  unfold backoffDelaySeconds
  rw [Int.le_floor]
  have h := calculateBackoffDelay_ge_base n u hu
  push_cast
  rw [le_div_iff₀ (by norm_num : (0 : ℚ) < 1000000000)]
  rw [BaseRetryDelay] at h
  linarith

/-- C8 counterexample: no jitter fraction makes the code's backoff match the
claimed symmetric formula — at attempt 0 the draws one quarter and three
quarters force contradictory fractions, because the code's jitter is
one-sided (it only ever adds up to twenty percent). -/
theorem C8_backoff_counterexample :
    ¬ ∃ f : ℚ, ∀ (n : Nat) (u : ℚ), 0 ≤ u → u ≤ 1 →
      calculateBackoffDelay n u = specSymmetricJitterDelay f n u := by
  rintro ⟨f, h⟩
  have h1 := h 0 (1 / 4) (by norm_num) (by norm_num)
  have h2 := h 0 (3 / 4) (by norm_num) (by norm_num)
  simp only [calculateBackoffDelay, specSymmetricJitterDelay, BaseRetryDelay,
    MaxRetryDelay, BackoffMultiplier, pow_zero] at h1 h2
  norm_num at h1 h2
  linarith

/-- C8 amended: the delay is min of maxDelay and the jittered exponential
base times multiplier to the attempt times one plus a fifth of the unit draw:
the jitter is one-sided (never reduces the delay below the nominal
exponential value), is proportional to the uncapped delay, and the cap is
applied after the jitter; base delay 10 seconds and multiplier 2. -/
theorem C8_backoff_amended (n : Nat) (u : ℚ) (hu : 0 ≤ u) :
    calculateBackoffDelay n u =
      min MaxRetryDelay (BaseRetryDelay * BackoffMultiplier ^ n * (1 + 0.2 * u)) ∧
    min MaxRetryDelay (BaseRetryDelay * BackoffMultiplier ^ n) ≤
      calculateBackoffDelay n u := by
  exact ⟨calculateBackoffDelay_eq n u, calculateBackoffDelay_ge_nominal n u hu⟩

/-- Witness for the amended C8 at attempt 1 and draw one half. -/
theorem C8_backoff_amended_witness :
    calculateBackoffDelay 1 (1 / 2) =
      min MaxRetryDelay (BaseRetryDelay * BackoffMultiplier ^ 1 * (1 + 0.2 * (1 / 2))) ∧
    min MaxRetryDelay (BaseRetryDelay * BackoffMultiplier ^ 1) ≤
      calculateBackoffDelay 1 (1 / 2) :=
  C8_backoff_amended 1 (1 / 2) (by norm_num)

lemma callWithRetry_def (env : Env) (s : RunState) :
    callWithRetry env s = callWithRetryAux env 0 10 none s := rfl

lemma callWithRetry_rateLimit_first (env : Env) (s : RunState) (e : GoError)
    (hgen : env.gen s.calls = .error e) (hrl : isRateLimitError e = true) :
    callWithRetry env s =
      (rlState env s (backoffDelaySeconds 0 (env.jitter s.calls)),
       .error (.rateLimit (backoffDelaySeconds 0 (env.jitter s.calls)) e)) := by
  rw [callWithRetry_def, show (10 : Nat) = 9 + 1 from rfl]
  simp only [callWithRetryAux, hgen, hrl]
  rfl

lemma callWithRetry_ok_first (env : Env) (s : RunState) (r : String)
    (hgen : env.gen s.calls = .ok r) :
    callWithRetry env s = ({ s with calls := s.calls + 1 }, .ok r) := by
  rw [callWithRetry_def, show (10 : Nat) = 9 + 1 from rfl]
  simp only [callWithRetryAux, hgen]
  rfl

lemma callWithRetry_retry_then_ok (env : Env) (s : RunState) (e : GoError) (r : String)
    (hgen : env.gen s.calls = .error e) (hrl : isRateLimitError e = false)
    (hgen2 : env.gen (s.calls + 1) = .ok r) :
    callWithRetry env s =
      (clearCheckpointRetry { s with calls := s.calls + 2 }, .ok r) := by
  rw [callWithRetry_def, show (10 : Nat) = 9 + 1 from rfl]
  simp only [callWithRetryAux, hgen, hrl]
  simp only [Bool.false_eq_true, if_false, hgen2]
  norm_num

lemma callWithRetryAux_allFail (env : Env) (es : Nat → GoError) :
    ∀ (fuel attempt : Nat) (last : Option GoError) (s : RunState),
    (∀ i, i < fuel → env.gen (s.calls + i) = .error (es (s.calls + i)) ∧
      isRateLimitError (es (s.calls + i)) = false) →
    ∃ le, callWithRetryAux env attempt fuel last s =
      ({ s with calls := s.calls + fuel }, .error (.tooManyRetries le)) := by
  intro fuel
  induction fuel with
  | zero =>
    intro attempt last s _
    exact ⟨last, rfl⟩
  | succ n ih =>
    intro attempt last s h
    have h0 := h 0 (Nat.succ_pos n)
    rw [Nat.add_zero] at h0
    have hrec := ih (attempt + 1) (some (es s.calls)) { s with calls := s.calls + 1 }
      (by
        intro i hi
        have := h (i + 1) (by omega)
        simpa [Nat.add_assoc, Nat.add_comm 1 i] using this)
    obtain ⟨le, hle⟩ := hrec
    refine ⟨le, ?_⟩
    simp only [callWithRetryAux, h0.1, h0.2]
    simp only [Bool.false_eq_true, if_false]
    rw [hle]
    congr 1
    simp [Nat.add_assoc, Nat.add_comm 1 n]

lemma callWithRetry_allFail (env : Env) (es : Nat → GoError) (s : RunState)
    (h : ∀ i, i < 10 → env.gen (s.calls + i) = .error (es (s.calls + i)) ∧
      isRateLimitError (es (s.calls + i)) = false) :
    ∃ le, callWithRetry env s =
      ({ s with calls := s.calls + 10 }, .error (.tooManyRetries le)) := by
  rw [callWithRetry_def]
  exact callWithRetryAux_allFail env es 10 0 none s h

lemma rlState_checkpoint (env : Env) (x : RunState) (ds : ℤ) :
    (rlState env x ds).db.checkpoint =
      x.db.checkpoint.map fun cp =>
        { cp with retryCount := cp.retryCount + 1, lastRetryAt := some env.now,
                  nextRetryAt := some (env.now + ds) } := rfl

lemma rlState_evalStatus (env : Env) (x : RunState) (ds : ℤ) :
    (rlState env x ds).db.evalStatus = "retrying" := rfl

lemma runPhaseInicial_rateLimit (env : Env) (prompt : String) (mensagens : List Msg)
    (s : RunState) (e : GoError)
    (hgen : env.gen s.calls = .error e) (hrl : isRateLimitError e = true) :
    runPhaseInicial env prompt mensagens s =
      (rlState env (pushEvent s "Consulta Inicial")
        (backoffDelaySeconds 0 (env.jitter s.calls)),
       .error (.rateLimit (backoffDelaySeconds 0 (env.jitter s.calls)) e)) := by
  simp only [runPhaseInicial]
  rw [callWithRetry_rateLimit_first env (pushEvent s "Consulta Inicial") e hgen hrl]
  rfl

lemma runPhaseInversao_rateLimit (env : Env) (mensagens : List Msg)
    (s : RunState) (e : GoError)
    (hgen : env.gen s.calls = .error e) (hrl : isRateLimitError e = true) :
    runPhaseInversao env mensagens s =
      (rlState env (pushEvent s "Inversão de Lógica")
        (backoffDelaySeconds 0 (env.jitter s.calls)),
       .error (.rateLimit (backoffDelaySeconds 0 (env.jitter s.calls)) e)) := by
  simp only [runPhaseInversao]
  rw [callWithRetry_rateLimit_first env (pushEvent s "Inversão de Lógica") e hgen hrl]
  rfl

lemma runPhaseConfronto_rateLimit (env : Env) (mensagens : List Msg)
    (s : RunState) (e : GoError)
    (hgen : env.gen s.calls = .error e) (hrl : isRateLimitError e = true) :
    runPhaseConfronto env mensagens s =
      (rlState env (pushEvent s "Confronto Falso")
        (backoffDelaySeconds 0 (env.jitter s.calls)),
       .error (.rateLimit (backoffDelaySeconds 0 (env.jitter s.calls)) e)) := by
  simp only [runPhaseConfronto]
  rw [callWithRetry_rateLimit_first env (pushEvent s "Confronto Falso") e hgen hrl]
  rfl

lemma runPhasePurga_rateLimit (env : Env) (divergencia : ℝ) (diagnostico : String)
    (mensagens : List Msg) (s : RunState) (e : GoError)
    (hgen : env.gen s.calls = .error e) (hrl : isRateLimitError e = true) :
    runPhasePurga env divergencia diagnostico mensagens s =
      (rlState env (pushEvent s "Purga e Auditoria")
        (backoffDelaySeconds 0 (env.jitter s.calls)),
       .error (.rateLimit (backoffDelaySeconds 0 (env.jitter s.calls)) e)) := by
  simp only [runPhasePurga]
  rw [callWithRetry_rateLimit_first env (pushEvent s "Purga e Auditoria") e hgen hrl]
  rfl

lemma stageInicial_rateLimit (env : Env) (prompt : String) (mensagens : List Msg)
    (emb1 emb3 : List ℝ) (s : RunState) (e : GoError)
    (hgen : env.gen s.calls = .error e) (hrl : isRateLimitError e = true) :
    stageInicial env prompt mensagens emb1 emb3 s =
      (rlState env (pushEvent s "Consulta Inicial")
        (backoffDelaySeconds 0 (env.jitter s.calls)),
       .error (.rateLimit (backoffDelaySeconds 0 (env.jitter s.calls)) e)) := by
  simp only [stageInicial]
  rw [runPhaseInicial_rateLimit env prompt mensagens s e hgen hrl]

lemma stageInversao_rateLimit (env : Env) (mensagens : List Msg)
    (emb1 emb3 : List ℝ) (s : RunState) (e : GoError)
    (hgen : env.gen s.calls = .error e) (hrl : isRateLimitError e = true) :
    stageInversao env mensagens emb1 emb3 s =
      (rlState env (pushEvent s "Inversão de Lógica")
        (backoffDelaySeconds 0 (env.jitter s.calls)),
       .error (.rateLimit (backoffDelaySeconds 0 (env.jitter s.calls)) e)) := by
  simp only [stageInversao]
  rw [runPhaseInversao_rateLimit env mensagens s e hgen hrl]

lemma stageConfronto_rateLimit (env : Env) (mensagens : List Msg)
    (emb1 emb3 : List ℝ) (s : RunState) (e : GoError)
    (hgen : env.gen s.calls = .error e) (hrl : isRateLimitError e = true) :
    stageConfronto env mensagens emb1 emb3 s =
      (rlState env (pushEvent s "Confronto Falso")
        (backoffDelaySeconds 0 (env.jitter s.calls)),
       .error (.rateLimit (backoffDelaySeconds 0 (env.jitter s.calls)) e)) := by
  simp only [stageConfronto]
  rw [runPhaseConfronto_rateLimit env mensagens s e hgen hrl]

lemma stageCalculo_rateLimit (env : Env) (mensagens : List Msg)
    (emb1 emb3 : List ℝ) (s : RunState) (e : GoError)
    (hgen : env.gen s.calls = .error e) (hrl : isRateLimitError e = true) :
    stageCalculo env mensagens emb1 emb3 s =
      (rlState env (pushEvent (updateCheckpointDivergence
          (pushEvent s "Cálculo de Divergência") (CalculateDivergence emb1 emb3)
          (if CalculateDivergence emb1 emb3 > 0.25 then "Alucinação Confirmada"
           else "Resistência Estrutural")) "Purga e Auditoria")
        (backoffDelaySeconds 0 (env.jitter s.calls)),
       .error (.rateLimit (backoffDelaySeconds 0 (env.jitter s.calls)) e)) := by
  simp only [stageCalculo, runPhaseCalculo]
  rw [runPhasePurga_rateLimit env (CalculateDivergence emb1 emb3)
    (if CalculateDivergence emb1 emb3 > 0.25 then "Alucinação Confirmada"
     else "Resistência Estrutural") mensagens
    (updateCheckpointDivergence (pushEvent s "Cálculo de Divergência")
      (CalculateDivergence emb1 emb3)
      (if CalculateDivergence emb1 emb3 > 0.25 then "Alucinação Confirmada"
       else "Resistência Estrutural")) e hgen hrl]
  rfl

/-- A rate-limited first model call at the phase recorded in the switch leaves
the checkpoint phase alone, increments the retry counter, stamps the next
retry instant and moves the evaluation into retrying status. -/
lemma runSwitch_rateLimit (env : Env) (prompt p : String) (mensagens : List Msg)
    (emb1 emb3 : List ℝ) (s : RunState) (e : GoError)
    (hp : p = "inicial" ∨ p = "inversao" ∨ p = "confronto" ∨ p = "calculo" ∨ p = "purga")
    (hgen : env.gen s.calls = .error e) (hrl : isRateLimitError e = true) :
    ∃ x : RunState,
      runSwitch env prompt p mensagens emb1 emb3 s =
        (x, .error (.rateLimit (backoffDelaySeconds 0 (env.jitter s.calls)) e)) ∧
      (∀ cp0, s.db.checkpoint = some cp0 → ∃ cp2, x.db.checkpoint = some cp2 ∧
        cp2.currentPhase = cp0.currentPhase ∧
        cp2.retryCount = cp0.retryCount + 1 ∧
        cp2.nextRetryAt = some (env.now + backoffDelaySeconds 0 (env.jitter s.calls))) ∧
      x.db.evalStatus = "retrying" := by
  rcases hp with hp | hp | hp | hp | hp <;> subst hp
  · refine ⟨rlState env (pushEvent s "Consulta Inicial")
      (backoffDelaySeconds 0 (env.jitter s.calls)), ?_, ?_, rfl⟩
    · exact stageInicial_rateLimit env prompt mensagens emb1 emb3 s e hgen hrl
    · intro cp0 hcp0
      have hck : (rlState env (pushEvent s "Consulta Inicial")
          (backoffDelaySeconds 0 (env.jitter s.calls))).db.checkpoint
          = some (retryStamp env.now (backoffDelaySeconds 0 (env.jitter s.calls)) cp0) := by
        simp [rlState, setEvalStatus, updateCheckpointRetry, retryStamp, mapCheckpoint, pushEvent, hcp0]
      exact ⟨_, hck, rfl, rfl, rfl⟩
  · refine ⟨rlState env (pushEvent s "Inversão de Lógica")
      (backoffDelaySeconds 0 (env.jitter s.calls)), ?_, ?_, rfl⟩
    · exact stageInversao_rateLimit env mensagens emb1 emb3 s e hgen hrl
    · intro cp0 hcp0
      have hck : (rlState env (pushEvent s "Inversão de Lógica")
          (backoffDelaySeconds 0 (env.jitter s.calls))).db.checkpoint
          = some (retryStamp env.now (backoffDelaySeconds 0 (env.jitter s.calls)) cp0) := by
        simp [rlState, setEvalStatus, updateCheckpointRetry, retryStamp, mapCheckpoint, pushEvent, hcp0]
      exact ⟨_, hck, rfl, rfl, rfl⟩
  · refine ⟨rlState env (pushEvent s "Confronto Falso")
      (backoffDelaySeconds 0 (env.jitter s.calls)), ?_, ?_, rfl⟩
    · exact stageConfronto_rateLimit env mensagens emb1 emb3 s e hgen hrl
    · intro cp0 hcp0
      have hck : (rlState env (pushEvent s "Confronto Falso")
          (backoffDelaySeconds 0 (env.jitter s.calls))).db.checkpoint
          = some (retryStamp env.now (backoffDelaySeconds 0 (env.jitter s.calls)) cp0) := by
        simp [rlState, setEvalStatus, updateCheckpointRetry, retryStamp, mapCheckpoint, pushEvent, hcp0]
      exact ⟨_, hck, rfl, rfl, rfl⟩
  · refine ⟨rlState env (pushEvent (updateCheckpointDivergence
        (pushEvent s "Cálculo de Divergência") (CalculateDivergence emb1 emb3)
        (if CalculateDivergence emb1 emb3 > 0.25 then "Alucinação Confirmada"
         else "Resistência Estrutural")) "Purga e Auditoria")
      (backoffDelaySeconds 0 (env.jitter s.calls)), ?_, ?_, rfl⟩
    · exact stageCalculo_rateLimit env mensagens emb1 emb3 s e hgen hrl
    · intro cp0 hcp0
      have hck : (rlState env (pushEvent (updateCheckpointDivergence
          (pushEvent s "Cálculo de Divergência") (CalculateDivergence emb1 emb3)
          (if CalculateDivergence emb1 emb3 > 0.25 then "Alucinação Confirmada"
           else "Resistência Estrutural")) "Purga e Auditoria")
          (backoffDelaySeconds 0 (env.jitter s.calls))).db.checkpoint
          = some (retryStamp env.now (backoffDelaySeconds 0 (env.jitter s.calls))
              (divStamp (CalculateDivergence emb1 emb3)
                (if CalculateDivergence emb1 emb3 > 0.25 then "Alucinação Confirmada"
                 else "Resistência Estrutural") cp0)) := by
        simp [rlState, setEvalStatus, updateCheckpointRetry, updateCheckpointDivergence,
          retryStamp, divStamp, mapCheckpoint, pushEvent, hcp0]
      exact ⟨_, hck, rfl, rfl, rfl⟩
  · refine ⟨rlState env (pushEvent s "Purga e Auditoria")
      (backoffDelaySeconds 0 (env.jitter s.calls)), ?_, ?_, rfl⟩
    · exact runPhasePurga_rateLimit env 0 "" mensagens s e hgen hrl
    · intro cp0 hcp0
      have hck : (rlState env (pushEvent s "Purga e Auditoria")
          (backoffDelaySeconds 0 (env.jitter s.calls))).db.checkpoint
          = some (retryStamp env.now (backoffDelaySeconds 0 (env.jitter s.calls)) cp0) := by
        simp [rlState, setEvalStatus, updateCheckpointRetry, retryStamp, mapCheckpoint, pushEvent, hcp0]
      exact ⟨_, hck, rfl, rfl, rfl⟩

/-- C2: a rate-limited model call during an evaluation phase leaves the
checkpoint's current phase unchanged, increments the protocol retry counter by
one, sets the next-retry timestamp strictly after the attempt time, and the
surrounding job is completed, not failed. -/
theorem C2_rate_limit_pauses_checkpoint (env : Env) (external : String → Option String)
    (job : Job) (sys : Sys) (cp : Checkpoint) (e : GoError)
    (hjob : job.type = "run_evaluation")
    (hnp : IsJobProcessed sys job.id = false)
    (hcp : sys.run.db.checkpoint = some cp)
    (hphase : cp.currentPhase = "inicial" ∨ cp.currentPhase = "inversao" ∨
      cp.currentPhase = "confronto" ∨ cp.currentPhase = "calculo" ∨
      cp.currentPhase = "purga")
    (hwait : ∀ t, cp.nextRetryAt = some t → t ≤ env.now)
    (hgen : env.gen sys.run.calls = .error e)
    (hrl : isRateLimitError e = true)
    (hjit : 0 ≤ env.jitter sys.run.calls) :
    ∃ cp2 d,
      (processNextWithRateLimit env external .commit true job sys).1.run.db.checkpoint
        = some cp2 ∧
      cp2.currentPhase = cp.currentPhase ∧
      cp2.retryCount = cp.retryCount + 1 ∧
      cp2.nextRetryAt = some (env.now + d) ∧
      10 ≤ d ∧ env.now < env.now + d ∧
      (processNextWithRateLimit env external .commit true job sys).1.row.status
        = "completed" ∧
      (processNextWithRateLimit env external .commit true job sys).1.row.status
        ≠ "failed" := by
  obtain ⟨x, hx, hcps, hst⟩ := runSwitch_rateLimit env job.evalPrompt cp.currentPhase
    cp.messages (cp.embeddingInicial.getD []) (cp.embeddingConfronto.getD [])
    sys.run e hphase hgen hrl
  obtain ⟨cp2, hcp2, hph, hrc, hnr⟩ := hcps cp hcp
  have hload : runLoaded env job.evalPrompt cp sys.run =
      (x, .error (.phase (.rateLimit (backoffDelaySeconds 0 (env.jitter sys.run.calls)) e))) := by
    unfold runLoaded
    rw [hx]
  have hrun : RunEvaluationProtocolWithCheckpoint env job.evalPrompt sys.run =
      (x, .error (.phase (.rateLimit (backoffDelaySeconds 0 (env.jitter sys.run.calls)) e))) := by
    unfold RunEvaluationProtocolWithCheckpoint
    rw [hcp]
    rcases hna : cp.nextRetryAt with _ | t
    · simp only [hna]
      exact hload
    · simp only [hna]
      rw [if_neg (not_lt.mpr (hwait t hna))]
      exact hload
  have hhandle : handleRunEvaluation env job.evalPrompt sys.run = (x, none) := by
    unfold handleRunEvaluation RunEvaluationProtocol
    rw [hrun]
  have hh : runHandler env external job sys.run = (x, none) := by
    have hd : runHandler env external job sys.run
        = handleRunEvaluation env job.evalPrompt sys.run := by
      unfold runHandler
      rw [hjob]
      rfl
    rw [hd]
    exact hhandle
  have hfinal : processNextWithRateLimit env external .commit true job sys =
      (CompleteJob (RecordJobProcessed { sys with run := x } job.id), true) := by
    unfold processNextWithRateLimit
    rw [hnp]
    simp only [Bool.false_eq_true, if_false, if_true]
    simp only [processJobWithMetrics]
    rw [hh]
  refine ⟨cp2, backoffDelaySeconds 0 (env.jitter sys.run.calls), ?_, hph, hrc, hnr,
    backoffDelaySeconds_ge_ten 0 (env.jitter sys.run.calls) hjit, ?_, ?_, ?_⟩
  · rw [hfinal]
    exact hcp2
  · have h10 := backoffDelaySeconds_ge_ten 0 (env.jitter sys.run.calls) hjit
    omega
  · rw [hfinal]
    rfl
  · rw [hfinal]
    simp [CompleteJob]

/-- Witness for C2: a checkpoint at confronto, a 429 model error, draw zero. -/
theorem C2_rate_limit_pauses_checkpoint_witness :
    ∃ cp2 d,
      (processNextWithRateLimit
          ⟨fun _ => .error ⟨some 429, "rate limit"⟩, fun _ => [], fun _ => 0, 0⟩
          (fun _ => none) .commit true
          ⟨1, "run_evaluation", some 0, some 0, "P"⟩
          ⟨⟨⟨some ⟨"confronto", [], none, none, none, none, 0, none, none⟩,
             "processing", [], []⟩, 0, []⟩, [], ⟨"pending", 0, none⟩⟩).1.run.db.checkpoint
        = some cp2 ∧
      cp2.currentPhase = "confronto" ∧
      cp2.retryCount = 0 + 1 ∧
      cp2.nextRetryAt = some ((0 : ℤ) + d) ∧
      10 ≤ d ∧ (0 : ℤ) < 0 + d ∧
      (processNextWithRateLimit
          ⟨fun _ => .error ⟨some 429, "rate limit"⟩, fun _ => [], fun _ => 0, 0⟩
          (fun _ => none) .commit true
          ⟨1, "run_evaluation", some 0, some 0, "P"⟩
          ⟨⟨⟨some ⟨"confronto", [], none, none, none, none, 0, none, none⟩,
             "processing", [], []⟩, 0, []⟩, [], ⟨"pending", 0, none⟩⟩).1.row.status
        = "completed" ∧
      (processNextWithRateLimit
          ⟨fun _ => .error ⟨some 429, "rate limit"⟩, fun _ => [], fun _ => 0, 0⟩
          (fun _ => none) .commit true
          ⟨1, "run_evaluation", some 0, some 0, "P"⟩
          ⟨⟨⟨some ⟨"confronto", [], none, none, none, none, 0, none, none⟩,
             "processing", [], []⟩, 0, []⟩, [], ⟨"pending", 0, none⟩⟩).1.row.status
        ≠ "failed" :=
  C2_rate_limit_pauses_checkpoint
    ⟨fun _ => .error ⟨some 429, "rate limit"⟩, fun _ => [], fun _ => 0, 0⟩
    (fun _ => none)
    ⟨1, "run_evaluation", some 0, some 0, "P"⟩
    ⟨⟨⟨some ⟨"confronto", [], none, none, none, none, 0, none, none⟩,
       "processing", [], []⟩, 0, []⟩, [], ⟨"pending", 0, none⟩⟩
    ⟨"confronto", [], none, none, none, none, 0, none, none⟩
    ⟨some 429, "rate limit"⟩
    rfl rfl rfl (Or.inr (Or.inr (Or.inl rfl))) (fun t ht => nomatch ht) rfl
    (by decide) (by norm_num)

lemma runHandler_unknown (env : Env) (external : String → Option String) (job : Job)
    (s : RunState) (h : ¬ job.type ∈ knownJobTypes) :
    runHandler env external job s = (s, some ("unknown job type: " ++ job.type)) := by
  unfold runHandler
  split
  all_goals first
    | rfl
    | (rename_i heq; exact absurd (by rw [heq]; decide) h)

lemma attempts_force_dlq (now : ℤ) (job : Job) (h : 5 ≤ job.attemptCount.getD 0) :
    shouldMoveToDeadLetterQueue now job = true := by
  unfold shouldMoveToDeadLetterQueue
  rw [if_pos h]

/-- C10: a picked job whose category matches no handler is treated as a
processing failure with the unknown-job-type error: its row is marked failed
(dead-letter annotated once the attempt ceiling is reached), it is never
inserted into the idempotency ledger, and it is never marked completed. -/
theorem C10_unknown_job_type (env : Env) (external : String → Option String)
    (fate : TxFate) (job : Job) (sys : Sys) (h : ¬ job.type ∈ knownJobTypes) :
    (runHandler env external job sys.run).2 = some ("unknown job type: " ++ job.type) ∧
    (processJobWithMetrics env external fate job sys).processed = sys.processed ∧
    (processJobWithMetrics env external fate job sys).row.status = "failed" ∧
    (processJobWithMetrics env external fate job sys).row.status ≠ "completed" ∧
    ((processJobWithMetrics env external fate job sys).row.lastError =
        some ("unknown job type: " ++ job.type) ∨
      (processJobWithMetrics env external fate job sys).row.lastError =
        some ("MOVED_TO_DLQ: " ++ ("unknown job type: " ++ job.type))) ∧
    (5 ≤ job.attemptCount.getD 0 →
      (processJobWithMetrics env external fate job sys).row.lastError =
        some ("MOVED_TO_DLQ: " ++ ("unknown job type: " ++ job.type))) := by
  have hr := runHandler_unknown env external job sys.run h
  have hm : processJobWithMetrics env external fate job sys =
      (if shouldMoveToDeadLetterQueue env.now job
       then moveToDeadLetterQueue job ("unknown job type: " ++ job.type)
         { sys with run := sys.run }
       else FailJob { sys with run := sys.run } ("unknown job type: " ++ job.type)) := by
    simp only [processJobWithMetrics]
    rw [hr]
  refine ⟨by rw [hr], ?_, ?_, ?_, ?_, ?_⟩ <;> rw [hm]
  · split <;> rfl
  · split <;> rfl
  · split <;> simp [moveToDeadLetterQueue, FailJob]
  · split
    · right
      rfl
    · left
      rfl
  · intro h5
    rw [if_pos (attempts_force_dlq env.now job h5)]
    rfl

/-- Witness for C10: a job of type job_embedding (no such handler) with five
recorded attempts. -/
theorem C10_unknown_job_type_witness :
    (runHandler ⟨fun _ => .ok "r", fun _ => [], fun _ => 0, 0⟩ (fun _ => none)
        ⟨3, "job_embedding", some 5, some 0, ""⟩
        ⟨⟨none, "pending", [], []⟩, 0, []⟩).2 =
      some ("unknown job type: " ++ "job_embedding") ∧
    (processJobWithMetrics ⟨fun _ => .ok "r", fun _ => [], fun _ => 0, 0⟩ (fun _ => none)
        .commit ⟨3, "job_embedding", some 5, some 0, ""⟩
        ⟨⟨⟨none, "pending", [], []⟩, 0, []⟩, [], ⟨"pending", 0, none⟩⟩).processed = [] ∧
    (processJobWithMetrics ⟨fun _ => .ok "r", fun _ => [], fun _ => 0, 0⟩ (fun _ => none)
        .commit ⟨3, "job_embedding", some 5, some 0, ""⟩
        ⟨⟨⟨none, "pending", [], []⟩, 0, []⟩, [], ⟨"pending", 0, none⟩⟩).row.status =
      "failed" ∧
    (processJobWithMetrics ⟨fun _ => .ok "r", fun _ => [], fun _ => 0, 0⟩ (fun _ => none)
        .commit ⟨3, "job_embedding", some 5, some 0, ""⟩
        ⟨⟨⟨none, "pending", [], []⟩, 0, []⟩, [], ⟨"pending", 0, none⟩⟩).row.status ≠
      "completed" ∧
    ((processJobWithMetrics ⟨fun _ => .ok "r", fun _ => [], fun _ => 0, 0⟩ (fun _ => none)
        .commit ⟨3, "job_embedding", some 5, some 0, ""⟩
        ⟨⟨⟨none, "pending", [], []⟩, 0, []⟩, [], ⟨"pending", 0, none⟩⟩).row.lastError =
      some ("unknown job type: " ++ "job_embedding") ∨
      (processJobWithMetrics ⟨fun _ => .ok "r", fun _ => [], fun _ => 0, 0⟩ (fun _ => none)
        .commit ⟨3, "job_embedding", some 5, some 0, ""⟩
        ⟨⟨⟨none, "pending", [], []⟩, 0, []⟩, [], ⟨"pending", 0, none⟩⟩).row.lastError =
      some ("MOVED_TO_DLQ: " ++ ("unknown job type: " ++ "job_embedding"))) ∧
    (5 ≤ (some (5 : ℤ)).getD 0 →
      (processJobWithMetrics ⟨fun _ => .ok "r", fun _ => [], fun _ => 0, 0⟩ (fun _ => none)
        .commit ⟨3, "job_embedding", some 5, some 0, ""⟩
        ⟨⟨⟨none, "pending", [], []⟩, 0, []⟩, [], ⟨"pending", 0, none⟩⟩).row.lastError =
      some ("MOVED_TO_DLQ: " ++ ("unknown job type: " ++ "job_embedding"))) :=
  C10_unknown_job_type ⟨fun _ => .ok "r", fun _ => [], fun _ => 0, 0⟩ (fun _ => none)
    .commit ⟨3, "job_embedding", some 5, some 0, ""⟩
    ⟨⟨⟨none, "pending", [], []⟩, 0, []⟩, [], ⟨"pending", 0, none⟩⟩ (by decide)

lemma shouldMoveToDeadLetterQueue_iff (now : ℤ) (job : Job) :
    shouldMoveToDeadLetterQueue now job = true ↔
      (5 ≤ job.attemptCount.getD 0 ∨ job.createdAt = none ∨
        ∃ t, job.createdAt = some t ∧ now - t > 86400) := by
  unfold shouldMoveToDeadLetterQueue
  rcases hca : job.createdAt with _ | t <;> simp [hca]

/-- C9 counterexample: a job with zero attempts and no creation timestamp is
routed to the dead-letter queue although neither claimed trigger (attempt
ceiling, age above 24 hours) holds. -/
theorem C9_dead_letter_counterexample :
    shouldMoveToDeadLetterQueue 0 ⟨4, "send_email", some 0, none, ""⟩ = true ∧
    ¬ dlqSpecTrigger 0 ⟨4, "send_email", some 0, none, ""⟩ := by
  refine ⟨rfl, ?_⟩
  rintro (h5 | ⟨t, ht, _⟩)
  · simp [Option.getD] at h5
  · exact nomatch ht

/-- C9 amended: dead-letter routing triggers exactly when the attempt count
has reached 5, or the creation timestamp is absent, or the age since creation
exceeds 24 hours; the routed job is marked failed with the MOVED_TO_DLQ
marker prefixed to its error text; and the check runs only on the failure
path — a successful handler outcome never touches the error text. -/
theorem C9_dead_letter_amended :
    (∀ (now : ℤ) (job : Job),
      shouldMoveToDeadLetterQueue now job = true ↔
        (5 ≤ job.attemptCount.getD 0 ∨ job.createdAt = none ∨
          ∃ t, job.createdAt = some t ∧ now - t > 86400)) ∧
    (∀ (env : Env) (external : String → Option String) (fate : TxFate)
      (job : Job) (sys : Sys) (msg : String),
      (runHandler env external job sys.run).2 = some msg →
      shouldMoveToDeadLetterQueue env.now job = true →
      (processJobWithMetrics env external fate job sys).row.status = "failed" ∧
      (processJobWithMetrics env external fate job sys).row.lastError =
        some ("MOVED_TO_DLQ: " ++ msg)) ∧
    (∀ (env : Env) (external : String → Option String) (fate : TxFate)
      (job : Job) (sys : Sys),
      (runHandler env external job sys.run).2 = none →
      (processJobWithMetrics env external fate job sys).row.lastError =
        sys.row.lastError) := by
  refine ⟨shouldMoveToDeadLetterQueue_iff, ?_, ?_⟩
  · intro env external fate job sys msg hout hdlq
    rcases hrh : runHandler env external job sys.run with ⟨run2, out⟩
    rw [hrh] at hout
    simp only at hout
    subst hout
    constructor <;>
      simp [processJobWithMetrics, hrh, hdlq, moveToDeadLetterQueue, FailJob]
  · intro env external fate job sys hout
    rcases hrh : runHandler env external job sys.run with ⟨run2, out⟩
    rw [hrh] at hout
    simp only at hout
    subst hout
    rcases fate <;> simp [processJobWithMetrics, hrh, CompleteJob, RecordJobProcessed]

/-- Witness for the amended C9: the trigger characterization at a five-attempt
job, the routing effect on a failing email job, and an untouched error text on
a successful one. -/
theorem C9_dead_letter_amended_witness :
    (shouldMoveToDeadLetterQueue 0 ⟨4, "send_email", some 5, some 0, ""⟩ = true ↔
      (5 ≤ (some (5 : ℤ)).getD 0 ∨ (some (0 : ℤ)) = none ∨
        ∃ t, (some (0 : ℤ)) = some t ∧ (0 : ℤ) - t > 86400)) ∧
    ((processJobWithMetrics ⟨fun _ => .ok "r", fun _ => [], fun _ => 0, 0⟩
        (fun _ => some "boom") .commit ⟨4, "send_email", some 5, some 0, ""⟩
        ⟨⟨⟨none, "pending", [], []⟩, 0, []⟩, [], ⟨"pending", 0, none⟩⟩).row.status =
      "failed" ∧
      (processJobWithMetrics ⟨fun _ => .ok "r", fun _ => [], fun _ => 0, 0⟩
        (fun _ => some "boom") .commit ⟨4, "send_email", some 5, some 0, ""⟩
        ⟨⟨⟨none, "pending", [], []⟩, 0, []⟩, [], ⟨"pending", 0, none⟩⟩).row.lastError =
      some ("MOVED_TO_DLQ: " ++ "boom")) ∧
    (processJobWithMetrics ⟨fun _ => .ok "r", fun _ => [], fun _ => 0, 0⟩
        (fun _ => none) .commit ⟨4, "send_email", some 5, some 0, ""⟩
        ⟨⟨⟨none, "pending", [], []⟩, 0, []⟩, [], ⟨"pending", 0, none⟩⟩).row.lastError =
      none :=
  ⟨C9_dead_letter_amended.1 0 ⟨4, "send_email", some 5, some 0, ""⟩,
   C9_dead_letter_amended.2.1 ⟨fun _ => .ok "r", fun _ => [], fun _ => 0, 0⟩
     (fun _ => some "boom") .commit ⟨4, "send_email", some 5, some 0, ""⟩
     ⟨⟨⟨none, "pending", [], []⟩, 0, []⟩, [], ⟨"pending", 0, none⟩⟩ "boom" rfl
     (by decide),
   C9_dead_letter_amended.2.2 ⟨fun _ => .ok "r", fun _ => [], fun _ => 0, 0⟩
     (fun _ => none) .commit ⟨4, "send_email", some 5, some 0, ""⟩
     ⟨⟨⟨none, "pending", [], []⟩, 0, []⟩, [], ⟨"pending", 0, none⟩⟩ rfl⟩

/-- C1: on a successful handler outcome the idempotency row and the job
completion are written together in one transaction — when it commits, both are
visible; when it fails at any point, neither is, and the job row is exactly as
before, eligible for re-pick. A job already present in the idempotency ledger
at pick time is force-completed without dispatching any handler. -/
theorem C1_at_most_once :
    (∀ (env : Env) (external : String → Option String) (fate : TxFate)
      (job : Job) (sys : Sys),
      (runHandler env external job sys.run).2 = none →
      (fate = .commit →
        (processJobWithMetrics env external fate job sys).processed =
          job.id :: sys.processed ∧
        (processJobWithMetrics env external fate job sys).row.status = "completed") ∧
      (fate ≠ .commit →
        (processJobWithMetrics env external fate job sys).processed = sys.processed ∧
        (processJobWithMetrics env external fate job sys).row = sys.row)) ∧
    (∀ (env : Env) (external : String → Option String) (fate : TxFate)
      (acquired : Bool) (job : Job) (sys : Sys),
      IsJobProcessed sys job.id = true →
      processNextWithRateLimit env external fate acquired job sys =
        (CompleteJob sys, false)) := by
  constructor
  · intro env external fate job sys hout
    rcases hrh : runHandler env external job sys.run with ⟨run2, out⟩
    rw [hrh] at hout
    simp only at hout
    subst hout
    constructor
    · intro hf
      subst hf
      constructor <;>
        simp [processJobWithMetrics, hrh, RecordJobProcessed, CompleteJob]
    · intro hf
      rcases fate with _ | _ | _ | _ | _
      · exact absurd rfl hf
      all_goals constructor <;> simp [processJobWithMetrics, hrh]
  · intro env external fate acquired job sys h
    unfold processNextWithRateLimit
    simp [h]

/-- Witness for C1: a successful email job under a committing transaction, and
an already-processed job that is force-completed without a handler dispatch. -/
theorem C1_at_most_once_witness :
    ((processJobWithMetrics ⟨fun _ => .ok "r", fun _ => [], fun _ => 0, 0⟩
        (fun _ => none) .commit ⟨7, "send_email", some 0, some 0, ""⟩
        ⟨⟨⟨none, "pending", [], []⟩, 0, []⟩, [], ⟨"pending", 0, none⟩⟩).processed =
      7 :: [] ∧
      (processJobWithMetrics ⟨fun _ => .ok "r", fun _ => [], fun _ => 0, 0⟩
        (fun _ => none) .commit ⟨7, "send_email", some 0, some 0, ""⟩
        ⟨⟨⟨none, "pending", [], []⟩, 0, []⟩, [], ⟨"pending", 0, none⟩⟩).row.status =
      "completed") ∧
    ((processJobWithMetrics ⟨fun _ => .ok "r", fun _ => [], fun _ => 0, 0⟩
        (fun _ => none) .failCommit ⟨7, "send_email", some 0, some 0, ""⟩
        ⟨⟨⟨none, "pending", [], []⟩, 0, []⟩, [], ⟨"pending", 0, none⟩⟩).processed = [] ∧
      (processJobWithMetrics ⟨fun _ => .ok "r", fun _ => [], fun _ => 0, 0⟩
        (fun _ => none) .failCommit ⟨7, "send_email", some 0, some 0, ""⟩
        ⟨⟨⟨none, "pending", [], []⟩, 0, []⟩, [], ⟨"pending", 0, none⟩⟩).row =
      ⟨"pending", 0, none⟩) ∧
    processNextWithRateLimit ⟨fun _ => .ok "r", fun _ => [], fun _ => 0, 0⟩
        (fun _ => none) .commit true ⟨7, "send_email", some 0, some 0, ""⟩
        ⟨⟨⟨none, "pending", [], []⟩, 0, []⟩, [7], ⟨"pending", 0, none⟩⟩ =
      (CompleteJob ⟨⟨⟨none, "pending", [], []⟩, 0, []⟩, [7], ⟨"pending", 0, none⟩⟩,
        false) :=
  ⟨(C1_at_most_once.1 ⟨fun _ => .ok "r", fun _ => [], fun _ => 0, 0⟩ (fun _ => none)
      .commit ⟨7, "send_email", some 0, some 0, ""⟩
      ⟨⟨⟨none, "pending", [], []⟩, 0, []⟩, [], ⟨"pending", 0, none⟩⟩ rfl).1 rfl,
   (C1_at_most_once.1 ⟨fun _ => .ok "r", fun _ => [], fun _ => 0, 0⟩ (fun _ => none)
      .failCommit ⟨7, "send_email", some 0, some 0, ""⟩
      ⟨⟨⟨none, "pending", [], []⟩, 0, []⟩, [], ⟨"pending", 0, none⟩⟩ rfl).2
      (by decide),
   C1_at_most_once.2 ⟨fun _ => .ok "r", fun _ => [], fun _ => 0, 0⟩ (fun _ => none)
      .commit true ⟨7, "send_email", some 0, some 0, ""⟩
      ⟨⟨⟨none, "pending", [], []⟩, 0, []⟩, [7], ⟨"pending", 0, none⟩⟩ rfl⟩

lemma runProtocol_loads (env : Env) (prompt : String) (s : RunState) (cp : Checkpoint)
    (hcp : s.db.checkpoint = some cp)
    (hwait : ∀ t, cp.nextRetryAt = some t → t ≤ env.now) :
    RunEvaluationProtocolWithCheckpoint env prompt s = runLoaded env prompt cp s := by
  unfold RunEvaluationProtocolWithCheckpoint
  rw [hcp]
  rcases hna : cp.nextRetryAt with _ | t
  · simp only [hna]
  · simp only [hna]
    rw [if_neg (not_lt.mpr (hwait t hna))]

/-- C3: re-running from a checkpoint at phase p executes no phase before p (the
progress trace gains only the events from p onward, and a confronto resume
appends only the confronto instruction — neither the inicial prompt nor the
inversao instruction is appended again), and when no call fails the single
invocation falls through every remaining phase: it completes purga, writes the
audit and marks the evaluation completed in one pass. -/
theorem C3_resumption_idempotence (env : Env) (res : Nat → String) (prompt : String)
    (s : RunState) (cp : Checkpoint)
    (hall : ∀ k, env.gen k = .ok (res k))
    (hcp : s.db.checkpoint = some cp)
    (hwait : ∀ t, cp.nextRetryAt = some t → t ≤ env.now) :
    (cp.currentPhase = "inicial" →
      (RunEvaluationProtocolWithCheckpoint env prompt s).2 = .ok () ∧
      (RunEvaluationProtocolWithCheckpoint env prompt s).1.events =
        s.events ++ ["Consulta Inicial", "Inversão de Lógica", "Confronto Falso",
          "Cálculo de Divergência", "Purga e Auditoria", "complete"] ∧
      (RunEvaluationProtocolWithCheckpoint env prompt s).1.db.evalStatus = "completed" ∧
      (∃ d g, (RunEvaluationProtocolWithCheckpoint env prompt s).1.db.audits =
        s.db.audits ++ [⟨d, g⟩])) ∧
    (cp.currentPhase = "inversao" →
      (RunEvaluationProtocolWithCheckpoint env prompt s).2 = .ok () ∧
      (RunEvaluationProtocolWithCheckpoint env prompt s).1.events =
        s.events ++ ["Inversão de Lógica", "Confronto Falso",
          "Cálculo de Divergência", "Purga e Auditoria", "complete"] ∧
      (RunEvaluationProtocolWithCheckpoint env prompt s).1.db.evalStatus = "completed" ∧
      (∃ d g, (RunEvaluationProtocolWithCheckpoint env prompt s).1.db.audits =
        s.db.audits ++ [⟨d, g⟩])) ∧
    (cp.currentPhase = "confronto" →
      (RunEvaluationProtocolWithCheckpoint env prompt s).2 = .ok () ∧
      (RunEvaluationProtocolWithCheckpoint env prompt s).1.events =
        s.events ++ ["Confronto Falso", "Cálculo de Divergência",
          "Purga e Auditoria", "complete"] ∧
      (RunEvaluationProtocolWithCheckpoint env prompt s).1.db.evalStatus = "completed" ∧
      (∃ d g, (RunEvaluationProtocolWithCheckpoint env prompt s).1.db.audits =
        s.db.audits ++ [⟨d, g⟩]) ∧
      (∃ cp2, (RunEvaluationProtocolWithCheckpoint env prompt s).1.db.checkpoint =
          some cp2 ∧
        cp2.messages = cp.messages ++ [⟨"user", confrontoInstruction⟩])) ∧
    (cp.currentPhase = "calculo" →
      (RunEvaluationProtocolWithCheckpoint env prompt s).2 = .ok () ∧
      (RunEvaluationProtocolWithCheckpoint env prompt s).1.events =
        s.events ++ ["Cálculo de Divergência", "Purga e Auditoria", "complete"] ∧
      (RunEvaluationProtocolWithCheckpoint env prompt s).1.db.evalStatus = "completed" ∧
      (∃ d g, (RunEvaluationProtocolWithCheckpoint env prompt s).1.db.audits =
        s.db.audits ++ [⟨d, g⟩])) := by
  have hload := runProtocol_loads env prompt s cp hcp hwait
  refine ⟨?_, ?_, ?_, ?_⟩ <;> intro hph <;> rw [hload] <;>
    simp [runLoaded, runSwitch, hph, hcp, stageInicial, stageInversao, stageConfronto,
      stageCalculo, runPhaseInicial, runPhaseInversao, runPhaseConfronto,
      runPhaseCalculo, runPhasePurga, callWithRetry, MaxRetries, callWithRetryAux,
      hall, pushEvent, saveIteration, updateCheckpointPhase, updateCheckpointMessages,
      updateCheckpointDivergence, saveCheckpointWithEmbeddings,
      updateCheckpointEmbeddings, mapCheckpoint, setEvalStatus, createAudit,
      clearCheckpointRetry]

/-- Witness for C3: resuming at confronto with a transcript already holding
the inicial prompt and the inversao instruction, under an always-succeeding
model. -/
theorem C3_resumption_idempotence_witness :
    (RunEvaluationProtocolWithCheckpoint ⟨fun _ => .ok "r", fun _ => [], fun _ => 0, 0⟩
        "P" ⟨⟨some ⟨"confronto", [⟨"user", "P"⟩, ⟨"assistant", "A"⟩,
          ⟨"user", inversaoInstruction⟩, ⟨"assistant", "B"⟩], some [1], none, none,
          none, 0, none, none⟩, "processing", [], []⟩, 0, []⟩).2 = .ok () ∧
    (RunEvaluationProtocolWithCheckpoint ⟨fun _ => .ok "r", fun _ => [], fun _ => 0, 0⟩
        "P" ⟨⟨some ⟨"confronto", [⟨"user", "P"⟩, ⟨"assistant", "A"⟩,
          ⟨"user", inversaoInstruction⟩, ⟨"assistant", "B"⟩], some [1], none, none,
          none, 0, none, none⟩, "processing", [], []⟩, 0, []⟩).1.events =
      [] ++ ["Confronto Falso", "Cálculo de Divergência", "Purga e Auditoria",
        "complete"] ∧
    (RunEvaluationProtocolWithCheckpoint ⟨fun _ => .ok "r", fun _ => [], fun _ => 0, 0⟩
        "P" ⟨⟨some ⟨"confronto", [⟨"user", "P"⟩, ⟨"assistant", "A"⟩,
          ⟨"user", inversaoInstruction⟩, ⟨"assistant", "B"⟩], some [1], none, none,
          none, 0, none, none⟩, "processing", [], []⟩, 0, []⟩).1.db.evalStatus =
      "completed" ∧
    (∃ d g, (RunEvaluationProtocolWithCheckpoint
        ⟨fun _ => .ok "r", fun _ => [], fun _ => 0, 0⟩
        "P" ⟨⟨some ⟨"confronto", [⟨"user", "P"⟩, ⟨"assistant", "A"⟩,
          ⟨"user", inversaoInstruction⟩, ⟨"assistant", "B"⟩], some [1], none, none,
          none, 0, none, none⟩, "processing", [], []⟩, 0, []⟩).1.db.audits =
      [] ++ [⟨d, g⟩]) ∧
    (∃ cp2, (RunEvaluationProtocolWithCheckpoint
        ⟨fun _ => .ok "r", fun _ => [], fun _ => 0, 0⟩
        "P" ⟨⟨some ⟨"confronto", [⟨"user", "P"⟩, ⟨"assistant", "A"⟩,
          ⟨"user", inversaoInstruction⟩, ⟨"assistant", "B"⟩], some [1], none, none,
          none, 0, none, none⟩, "processing", [], []⟩, 0, []⟩).1.db.checkpoint =
        some cp2 ∧
      cp2.messages = [⟨"user", "P"⟩, ⟨"assistant", "A"⟩,
        ⟨"user", inversaoInstruction⟩, ⟨"assistant", "B"⟩] ++
        [⟨"user", confrontoInstruction⟩]) :=
  (C3_resumption_idempotence ⟨fun _ => .ok "r", fun _ => [], fun _ => 0, 0⟩
    (fun _ => "r") "P" ⟨⟨some ⟨"confronto", [⟨"user", "P"⟩, ⟨"assistant", "A"⟩,
      ⟨"user", inversaoInstruction⟩, ⟨"assistant", "B"⟩], some [1], none, none,
      none, 0, none, none⟩, "processing", [], []⟩, 0, []⟩
    ⟨"confronto", [⟨"user", "P"⟩, ⟨"assistant", "A"⟩,
      ⟨"user", inversaoInstruction⟩, ⟨"assistant", "B"⟩], some [1], none, none,
      none, 0, none, none⟩
    (fun _ => rfl) rfl (fun t ht => nomatch ht)).2.2.1 rfl

lemma callWithRetryAux_preserves (env : Env) :
    ∀ (fuel attempt : Nat) (last : Option GoError) (s : RunState),
    ((callWithRetryAux env attempt fuel last s).1).db.audits = s.db.audits ∧
    ((callWithRetryAux env attempt fuel last s).1).db.checkpoint.map
        Checkpoint.currentPhase = s.db.checkpoint.map Checkpoint.currentPhase ∧
    ((callWithRetryAux env attempt fuel last s).1).db.checkpoint.map
        Checkpoint.divergenciaCalculada
      = s.db.checkpoint.map Checkpoint.divergenciaCalculada ∧
    ((callWithRetryAux env attempt fuel last s).1).db.checkpoint.map
        Checkpoint.diagnosticoFinal
      = s.db.checkpoint.map Checkpoint.diagnosticoFinal ∧
    ((callWithRetryAux env attempt fuel last s).1).db.checkpoint.isSome
      = s.db.checkpoint.isSome := by
  intro fuel
  induction fuel with
  | zero =>
    intro attempt last s
    exact ⟨rfl, rfl, rfl, rfl, rfl⟩
  | succ n ih =>
    intro attempt last s
    simp only [callWithRetryAux]
    rcases hg : env.gen s.calls with e | r
    · by_cases hrl : isRateLimitError e = true
      · rcases hck : s.db.checkpoint with _ | cp0 <;>
          simp [hrl, updateCheckpointRetry, setEvalStatus, mapCheckpoint, hck]
      · rw [Bool.not_eq_true] at hrl
        simpa [hrl] using ih (attempt + 1) (some e) { s with calls := s.calls + 1 }
    · rcases hck : s.db.checkpoint with _ | cp0 <;>
        by_cases ha : attempt > 0 <;>
        simp [ha, clearCheckpointRetry, mapCheckpoint, hck]

lemma callWithRetry_preserves (env : Env) (s s1 : RunState)
    (r : Except ProtoError String) (hc : callWithRetry env s = (s1, r)) :
    s1.db.audits = s.db.audits ∧
    s1.db.checkpoint.map Checkpoint.currentPhase
      = s.db.checkpoint.map Checkpoint.currentPhase ∧
    s1.db.checkpoint.map Checkpoint.divergenciaCalculada
      = s.db.checkpoint.map Checkpoint.divergenciaCalculada ∧
    s1.db.checkpoint.map Checkpoint.diagnosticoFinal
      = s.db.checkpoint.map Checkpoint.diagnosticoFinal ∧
    s1.db.checkpoint.isSome = s.db.checkpoint.isSome := by
  have h := callWithRetryAux_preserves env 10 0 none s
  rw [callWithRetry_def] at hc
  rw [hc] at h
  exact h

lemma runPhaseInicial_info (env : Env) (prompt : String) (mensagens : List Msg)
    (s : RunState) :
    ((runPhaseInicial env prompt mensagens s).1).db.audits = s.db.audits ∧
    ((runPhaseInicial env prompt mensagens s).1).db.checkpoint.isSome
      = s.db.checkpoint.isSome := by
  simp only [runPhaseInicial]
  rcases hc : callWithRetry env (pushEvent s "Consulta Inicial") with ⟨s1, r⟩
  have hp := callWithRetry_preserves env (pushEvent s "Consulta Inicial") s1 r hc
  cases r with
  | error e => exact ⟨hp.1, hp.2.2.2.2⟩
  | ok r1 =>
    refine ⟨?_, ?_⟩
    · simpa [saveCheckpointWithEmbeddings, updateCheckpointEmbeddings,
        updateCheckpointPhase, updateCheckpointMessages, saveIteration,
        mapCheckpoint] using hp.1
    · simpa [saveCheckpointWithEmbeddings, updateCheckpointEmbeddings,
        updateCheckpointPhase, updateCheckpointMessages, saveIteration,
        mapCheckpoint] using hp.2.2.2.2

lemma runPhaseInversao_info (env : Env) (mensagens : List Msg) (s : RunState) :
    ((runPhaseInversao env mensagens s).1).db.audits = s.db.audits ∧
    ((runPhaseInversao env mensagens s).1).db.checkpoint.isSome
      = s.db.checkpoint.isSome := by
  simp only [runPhaseInversao]
  rcases hc : callWithRetry env (pushEvent s "Inversão de Lógica") with ⟨s1, r⟩
  have hp := callWithRetry_preserves env (pushEvent s "Inversão de Lógica") s1 r hc
  cases r with
  | error e => exact ⟨hp.1, hp.2.2.2.2⟩
  | ok r2 =>
    refine ⟨?_, ?_⟩
    · simpa [updateCheckpointPhase, updateCheckpointMessages, saveIteration,
        mapCheckpoint] using hp.1
    · simpa [updateCheckpointPhase, updateCheckpointMessages, saveIteration,
        mapCheckpoint] using hp.2.2.2.2

lemma runPhaseConfronto_info (env : Env) (mensagens : List Msg) (s : RunState) :
    ((runPhaseConfronto env mensagens s).1).db.audits = s.db.audits ∧
    ((runPhaseConfronto env mensagens s).1).db.checkpoint.isSome
      = s.db.checkpoint.isSome := by
  simp only [runPhaseConfronto]
  rcases hc : callWithRetry env (pushEvent s "Confronto Falso") with ⟨s1, r⟩
  have hp := callWithRetry_preserves env (pushEvent s "Confronto Falso") s1 r hc
  cases r with
  | error e => exact ⟨hp.1, hp.2.2.2.2⟩
  | ok r3 =>
    refine ⟨?_, ?_⟩
    · simpa [saveCheckpointWithEmbeddings, updateCheckpointEmbeddings,
        updateCheckpointPhase, updateCheckpointMessages, saveIteration,
        mapCheckpoint] using hp.1
    · simpa [saveCheckpointWithEmbeddings, updateCheckpointEmbeddings,
        updateCheckpointPhase, updateCheckpointMessages, saveIteration,
        mapCheckpoint] using hp.2.2.2.2

lemma stageCalculo_ok_spec (env : Env) (mensagens : List Msg) (emb1 emb3 : List ℝ)
    (s : RunState) (cp : Checkpoint) (hck : s.db.checkpoint = some cp)
    (hok : (stageCalculo env mensagens emb1 emb3 s).2 = .ok ()) :
    ∃ d g cp2,
      ((stageCalculo env mensagens emb1 emb3 s).1).db.checkpoint = some cp2 ∧
      cp2.divergenciaCalculada = some d ∧ cp2.diagnosticoFinal = some g ∧
      ((stageCalculo env mensagens emb1 emb3 s).1).db.audits =
        s.db.audits ++ [⟨d, g⟩] := by
  simp only [stageCalculo, runPhaseCalculo, runPhasePurga] at hok ⊢
  rcases hc : callWithRetry env (pushEvent (updateCheckpointDivergence
      (pushEvent s "Cálculo de Divergência") (CalculateDivergence emb1 emb3)
      (if CalculateDivergence emb1 emb3 > 0.25 then "Alucinação Confirmada"
       else "Resistência Estrutural")) "Purga e Auditoria") with ⟨s3, r⟩
  rw [hc] at hok
  have hp := callWithRetry_preserves env _ s3 r hc
  cases r with
  | error e => simp at hok
  | ok r5 =>
    have hdiv : s3.db.checkpoint.map Checkpoint.divergenciaCalculada
        = some (some (CalculateDivergence emb1 emb3)) := by
      rw [hp.2.2.1]
      simp [pushEvent, updateCheckpointDivergence, mapCheckpoint, hck]
    have hdiag : s3.db.checkpoint.map Checkpoint.diagnosticoFinal
        = some (some (if CalculateDivergence emb1 emb3 > 0.25
            then "Alucinação Confirmada" else "Resistência Estrutural")) := by
      rw [hp.2.2.2.1]
      simp [pushEvent, updateCheckpointDivergence, mapCheckpoint, hck]
    rw [Option.map_eq_some'] at hdiv
    obtain ⟨cp3, hcp3, hdiv3⟩ := hdiv
    rw [hcp3] at hdiag
    simp only [Option.map_some', Option.some.injEq] at hdiag
    have haud : s3.db.audits = s.db.audits := by
      rw [hp.1]
      rfl
    refine ⟨CalculateDivergence emb1 emb3,
      (if CalculateDivergence emb1 emb3 > 0.25 then "Alucinação Confirmada"
       else "Resistência Estrutural"), clearStamp cp3, ?_, ?_, ?_, ?_⟩
    · simp [pushEvent, clearCheckpointRetry, setEvalStatus, createAudit,
        saveIteration, mapCheckpoint, hcp3, clearStamp]
    · simp [clearStamp, hdiv3]
    · simp [clearStamp, hdiag]
    · simp [pushEvent, clearCheckpointRetry, setEvalStatus, createAudit,
        saveIteration, mapCheckpoint, haud]

lemma phasesRecorded_of_map_eq (x y : RunState)
    (h : x.db.checkpoint.map Checkpoint.currentPhase
      = y.db.checkpoint.map Checkpoint.currentPhase)
    (hy : phasesRecorded y) : phasesRecorded x := by
  intro cp2 hcp2
  rw [hcp2] at h
  simp only [Option.map_some'] at h
  symm at h
  rw [Option.map_eq_some'] at h
  obtain ⟨cpa, hcpa, hph⟩ := h
  exact hph ▸ hy cpa hcpa

lemma phasesRecorded_of_const (x y : RunState) (v : String) (hv : v ∈ recordedPhases)
    (h : x.db.checkpoint.map Checkpoint.currentPhase
      = y.db.checkpoint.map fun _ => v) : phasesRecorded x := by
  intro cp2 hcp2
  rw [hcp2] at h
  simp only [Option.map_some'] at h
  symm at h
  rw [Option.map_eq_some'] at h
  obtain ⟨cpa, _, hph⟩ := h
  exact hph ▸ hv

lemma runPhaseInicial_phases (env : Env) (prompt : String) (mensagens : List Msg)
    (s : RunState) (h : phasesRecorded s) :
    phasesRecorded ((runPhaseInicial env prompt mensagens s).1) := by
  simp only [runPhaseInicial]
  rcases hc : callWithRetry env (pushEvent s "Consulta Inicial") with ⟨s1, r⟩
  have hp := callWithRetry_preserves env (pushEvent s "Consulta Inicial") s1 r hc
  have hmap : s1.db.checkpoint.map Checkpoint.currentPhase
      = s.db.checkpoint.map Checkpoint.currentPhase := hp.2.1
  have h1 : phasesRecorded s1 := phasesRecorded_of_map_eq s1 s hmap h
  cases r with
  | error e => exact h1
  | ok r1 =>
    apply phasesRecorded_of_const _ s1 "inversao" (by decide)
    simp only [saveCheckpointWithEmbeddings, updateCheckpointEmbeddings,
      updateCheckpointPhase, updateCheckpointMessages, saveIteration,
      mapCheckpoint, Option.map_map]
    rcases hck : s1.db.checkpoint with _ | cpb <;> simp [hck]

lemma runPhaseInversao_phases (env : Env) (mensagens : List Msg)
    (s : RunState) (h : phasesRecorded s) :
    phasesRecorded ((runPhaseInversao env mensagens s).1) := by
  simp only [runPhaseInversao]
  rcases hc : callWithRetry env (pushEvent s "Inversão de Lógica") with ⟨s1, r⟩
  have hp := callWithRetry_preserves env (pushEvent s "Inversão de Lógica") s1 r hc
  have hmap : s1.db.checkpoint.map Checkpoint.currentPhase
      = s.db.checkpoint.map Checkpoint.currentPhase := hp.2.1
  have h1 : phasesRecorded s1 := phasesRecorded_of_map_eq s1 s hmap h
  cases r with
  | error e => exact h1
  | ok r2 =>
    apply phasesRecorded_of_const _ s1 "confronto" (by decide)
    simp only [updateCheckpointPhase, updateCheckpointMessages, saveIteration,
      mapCheckpoint, Option.map_map]
    rcases hck : s1.db.checkpoint with _ | cpb <;> simp [hck]

lemma runPhaseConfronto_phases (env : Env) (mensagens : List Msg)
    (s : RunState) (h : phasesRecorded s) :
    phasesRecorded ((runPhaseConfronto env mensagens s).1) := by
  simp only [runPhaseConfronto]
  rcases hc : callWithRetry env (pushEvent s "Confronto Falso") with ⟨s1, r⟩
  have hp := callWithRetry_preserves env (pushEvent s "Confronto Falso") s1 r hc
  have hmap : s1.db.checkpoint.map Checkpoint.currentPhase
      = s.db.checkpoint.map Checkpoint.currentPhase := hp.2.1
  have h1 : phasesRecorded s1 := phasesRecorded_of_map_eq s1 s hmap h
  cases r with
  | error e => exact h1
  | ok r3 =>
    apply phasesRecorded_of_const _ s1 "calculo" (by decide)
    simp only [saveCheckpointWithEmbeddings, updateCheckpointEmbeddings,
      updateCheckpointPhase, updateCheckpointMessages, saveIteration,
      mapCheckpoint, Option.map_map]
    rcases hck : s1.db.checkpoint with _ | cpb <;> simp [hck]

lemma runPhaseCalculo_phases (emb1 emb3 : List ℝ) (s : RunState)
    (h : phasesRecorded s) :
    phasesRecorded ((runPhaseCalculo emb1 emb3 s).1) := by
  apply phasesRecorded_of_map_eq _ s ?_ h
  simp only [runPhaseCalculo, updateCheckpointDivergence, pushEvent,
    mapCheckpoint, Option.map_map]
  rcases hck : s.db.checkpoint with _ | cpb <;> simp [hck]

lemma runPhasePurga_phases (env : Env) (divergencia : ℝ) (diagnostico : String)
    (mensagens : List Msg) (s : RunState) (h : phasesRecorded s) :
    phasesRecorded ((runPhasePurga env divergencia diagnostico mensagens s).1) := by
  simp only [runPhasePurga]
  rcases hc : callWithRetry env (pushEvent s "Purga e Auditoria") with ⟨s3, r⟩
  have hp := callWithRetry_preserves env (pushEvent s "Purga e Auditoria") s3 r hc
  have hmap : s3.db.checkpoint.map Checkpoint.currentPhase
      = s.db.checkpoint.map Checkpoint.currentPhase := hp.2.1
  have h3 : phasesRecorded s3 := phasesRecorded_of_map_eq s3 s hmap h
  cases r with
  | error e => exact h3
  | ok r5 =>
    apply phasesRecorded_of_map_eq _ s3 ?_ h3
    simp only [pushEvent, clearCheckpointRetry, setEvalStatus, createAudit,
      saveIteration, mapCheckpoint, Option.map_map]
    rcases hck : s3.db.checkpoint with _ | cpb <;> simp [hck]

lemma stageCalculo_phases (env : Env) (mensagens : List Msg) (emb1 emb3 : List ℝ)
    (s : RunState) (h : phasesRecorded s) :
    phasesRecorded ((stageCalculo env mensagens emb1 emb3 s).1) := by
  simp only [stageCalculo]
  exact runPhasePurga_phases env _ _ mensagens _ (runPhaseCalculo_phases emb1 emb3 s h)

lemma stageConfronto_phases (env : Env) (mensagens : List Msg) (emb1 emb3 : List ℝ)
    (s : RunState) (h : phasesRecorded s) :
    phasesRecorded ((stageConfronto env mensagens emb1 emb3 s).1) := by
  simp only [stageConfronto]
  rcases hc : runPhaseConfronto env mensagens s with ⟨s1, r⟩
  have h1 : phasesRecorded s1 := by
    have hx := runPhaseConfronto_phases env mensagens s h
    rw [hc] at hx
    exact hx
  cases r with
  | error e => exact h1
  | ok v => exact stageCalculo_phases env v.1 emb1 v.2 s1 h1

lemma stageInversao_phases (env : Env) (mensagens : List Msg) (emb1 emb3 : List ℝ)
    (s : RunState) (h : phasesRecorded s) :
    phasesRecorded ((stageInversao env mensagens emb1 emb3 s).1) := by
  simp only [stageInversao]
  rcases hc : runPhaseInversao env mensagens s with ⟨s1, r⟩
  have h1 : phasesRecorded s1 := by
    have hx := runPhaseInversao_phases env mensagens s h
    rw [hc] at hx
    exact hx
  cases r with
  | error e => exact h1
  | ok v => exact stageConfronto_phases env v emb1 emb3 s1 h1

lemma stageInicial_phases (env : Env) (prompt : String) (mensagens : List Msg)
    (emb1 emb3 : List ℝ) (s : RunState) (h : phasesRecorded s) :
    phasesRecorded ((stageInicial env prompt mensagens emb1 emb3 s).1) := by
  simp only [stageInicial]
  rcases hc : runPhaseInicial env prompt mensagens s with ⟨s1, r⟩
  have h1 : phasesRecorded s1 := by
    have hx := runPhaseInicial_phases env prompt mensagens s h
    rw [hc] at hx
    exact hx
  cases r with
  | error e => exact h1
  | ok v => exact stageInversao_phases env v.1 v.2 emb3 s1 h1

lemma runSwitch_phases (env : Env) (prompt p : String) (mensagens : List Msg)
    (emb1 emb3 : List ℝ) (s : RunState) (h : phasesRecorded s) :
    phasesRecorded ((runSwitch env prompt p mensagens emb1 emb3 s).1) := by
  unfold runSwitch
  split_ifs with h1 h2 h3 h4 h5
  · exact stageInicial_phases env prompt mensagens emb1 emb3 s h
  · exact stageInversao_phases env mensagens emb1 emb3 s h
  · exact stageConfronto_phases env mensagens emb1 emb3 s h
  · exact stageCalculo_phases env mensagens emb1 emb3 s h
  · exact runPhasePurga_phases env 0 "" mensagens s h
  · exact h

lemma saveCheckpoint_inicial_phases (s : RunState) (mensagens : List Msg) :
    phasesRecorded (saveCheckpoint s "inicial" mensagens) := by
  intro cp2 hcp2
  unfold saveCheckpoint at hcp2
  rcases hck : s.db.checkpoint with _ | cp0 <;> rw [hck] at hcp2 <;>
    simp only [Option.some.injEq] at hcp2 <;> rw [← hcp2] <;> simp [recordedPhases]

/-- Every phase value the protocol ever persists on the checkpoint is one of
inicial, inversao, confronto or calculo; purga is never recorded. -/
lemma RunEvaluationProtocolWithCheckpoint_phases (env : Env) (prompt : String)
    (s : RunState) (h : phasesRecorded s) :
    phasesRecorded ((RunEvaluationProtocolWithCheckpoint env prompt s).1) := by
  rcases hck : s.db.checkpoint with _ | cp
  · rcases hc : stageInicial env prompt [] [] [] (saveCheckpoint s "inicial" []) with ⟨x, r⟩
    have hx : phasesRecorded x := by
      have hst := stageInicial_phases env prompt [] [] [] (saveCheckpoint s "inicial" [])
        (saveCheckpoint_inicial_phases s [])
      rw [hc] at hst
      exact hst
    unfold RunEvaluationProtocolWithCheckpoint
    simp only [hck, hc]
    cases r with
    | error e => exact hx
    | ok u => exact hx
  · rcases hc : runSwitch env prompt cp.currentPhase cp.messages
        (cp.embeddingInicial.getD []) (cp.embeddingConfronto.getD []) s with ⟨x, r⟩
    have hx : phasesRecorded x := by
      have hst := runSwitch_phases env prompt cp.currentPhase cp.messages
        (cp.embeddingInicial.getD []) (cp.embeddingConfronto.getD []) s h
      rw [hc] at hst
      exact hst
    unfold RunEvaluationProtocolWithCheckpoint runLoaded
    rcases hna : cp.nextRetryAt with _ | t
    · simp only [hck, hna, hc]
      cases r with
      | error e => exact hx
      | ok u => exact hx
    · simp only [hck, hna]
      by_cases hw : env.now < t
      · rw [if_pos hw]
        exact h
      · rw [if_neg hw]
        simp only [hc]
        cases r with
        | error e => exact hx
        | ok u => exact hx

lemma stageConfronto_ok_spec (env : Env) (mensagens : List Msg) (emb1 emb3 : List ℝ)
    (s : RunState) (cp : Checkpoint) (hck : s.db.checkpoint = some cp)
    (hok : (stageConfronto env mensagens emb1 emb3 s).2 = .ok ()) :
    ∃ d g cp2,
      ((stageConfronto env mensagens emb1 emb3 s).1).db.checkpoint = some cp2 ∧
      cp2.divergenciaCalculada = some d ∧ cp2.diagnosticoFinal = some g ∧
      ((stageConfronto env mensagens emb1 emb3 s).1).db.audits =
        s.db.audits ++ [⟨d, g⟩] := by
  simp only [stageConfronto] at hok ⊢
  rcases hc : runPhaseConfronto env mensagens s with ⟨s1, r⟩
  rw [hc] at hok
  have hinfo := runPhaseConfronto_info env mensagens s
  rw [hc] at hinfo
  have ha1 : s1.db.audits = s.db.audits := hinfo.1
  have hsm : s1.db.checkpoint.isSome = s.db.checkpoint.isSome := hinfo.2
  cases r with
  | error e => simp at hok
  | ok v =>
    have hsome : s1.db.checkpoint.isSome = true := by
      rw [hsm, hck]
      rfl
    obtain ⟨cp1, hcp1⟩ := Option.isSome_iff_exists.mp hsome
    obtain ⟨d, g, cp2, h1, h2, h3, h4⟩ :=
      stageCalculo_ok_spec env v.1 emb1 v.2 s1 cp1 hcp1 hok
    exact ⟨d, g, cp2, h1, h2, h3, by rw [h4, ha1]⟩

lemma stageInversao_ok_spec (env : Env) (mensagens : List Msg) (emb1 emb3 : List ℝ)
    (s : RunState) (cp : Checkpoint) (hck : s.db.checkpoint = some cp)
    (hok : (stageInversao env mensagens emb1 emb3 s).2 = .ok ()) :
    ∃ d g cp2,
      ((stageInversao env mensagens emb1 emb3 s).1).db.checkpoint = some cp2 ∧
      cp2.divergenciaCalculada = some d ∧ cp2.diagnosticoFinal = some g ∧
      ((stageInversao env mensagens emb1 emb3 s).1).db.audits =
        s.db.audits ++ [⟨d, g⟩] := by
  simp only [stageInversao] at hok ⊢
  rcases hc : runPhaseInversao env mensagens s with ⟨s1, r⟩
  rw [hc] at hok
  have hinfo := runPhaseInversao_info env mensagens s
  rw [hc] at hinfo
  have ha1 : s1.db.audits = s.db.audits := hinfo.1
  have hsm : s1.db.checkpoint.isSome = s.db.checkpoint.isSome := hinfo.2
  cases r with
  | error e => simp at hok
  | ok v =>
    have hsome : s1.db.checkpoint.isSome = true := by
      rw [hsm, hck]
      rfl
    obtain ⟨cp1, hcp1⟩ := Option.isSome_iff_exists.mp hsome
    obtain ⟨d, g, cp2, h1, h2, h3, h4⟩ :=
      stageConfronto_ok_spec env v emb1 emb3 s1 cp1 hcp1 hok
    exact ⟨d, g, cp2, h1, h2, h3, by rw [h4, ha1]⟩

lemma stageInicial_ok_spec (env : Env) (prompt : String) (mensagens : List Msg)
    (emb1 emb3 : List ℝ) (s : RunState) (cp : Checkpoint)
    (hck : s.db.checkpoint = some cp)
    (hok : (stageInicial env prompt mensagens emb1 emb3 s).2 = .ok ()) :
    ∃ d g cp2,
      ((stageInicial env prompt mensagens emb1 emb3 s).1).db.checkpoint = some cp2 ∧
      cp2.divergenciaCalculada = some d ∧ cp2.diagnosticoFinal = some g ∧
      ((stageInicial env prompt mensagens emb1 emb3 s).1).db.audits =
        s.db.audits ++ [⟨d, g⟩] := by
  simp only [stageInicial] at hok ⊢
  rcases hc : runPhaseInicial env prompt mensagens s with ⟨s1, r⟩
  rw [hc] at hok
  have hinfo := runPhaseInicial_info env prompt mensagens s
  rw [hc] at hinfo
  have ha1 : s1.db.audits = s.db.audits := hinfo.1
  have hsm : s1.db.checkpoint.isSome = s.db.checkpoint.isSome := hinfo.2
  cases r with
  | error e => simp at hok
  | ok v =>
    have hsome : s1.db.checkpoint.isSome = true := by
      rw [hsm, hck]
      rfl
    obtain ⟨cp1, hcp1⟩ := Option.isSome_iff_exists.mp hsome
    obtain ⟨d, g, cp2, h1, h2, h3, h4⟩ :=
      stageInversao_ok_spec env v.1 v.2 emb3 s1 cp1 hcp1 hok
    exact ⟨d, g, cp2, h1, h2, h3, by rw [h4, ha1]⟩

lemma runSwitch_ok_spec (env : Env) (prompt p : String) (mensagens : List Msg)
    (emb1 emb3 : List ℝ) (s : RunState) (cp : Checkpoint)
    (hck : s.db.checkpoint = some cp) (hp : p ∈ recordedPhases)
    (hok : (runSwitch env prompt p mensagens emb1 emb3 s).2 = .ok ()) :
    ∃ d g cp2,
      ((runSwitch env prompt p mensagens emb1 emb3 s).1).db.checkpoint = some cp2 ∧
      cp2.divergenciaCalculada = some d ∧ cp2.diagnosticoFinal = some g ∧
      ((runSwitch env prompt p mensagens emb1 emb3 s).1).db.audits =
        s.db.audits ++ [⟨d, g⟩] := by
  simp only [recordedPhases, List.mem_cons, List.not_mem_nil, or_false] at hp
  rcases hp with hp | hp | hp | hp
  · subst hp
    exact stageInicial_ok_spec env prompt mensagens emb1 emb3 s cp hck hok
  · subst hp
    exact stageInversao_ok_spec env mensagens emb1 emb3 s cp hck hok
  · subst hp
    exact stageConfronto_ok_spec env mensagens emb1 emb3 s cp hck hok
  · subst hp
    exact stageCalculo_ok_spec env mensagens emb1 emb3 s cp hck hok

lemma RunEvaluationProtocolWithCheckpoint_ok_spec (env : Env) (prompt : String)
    (s : RunState) (h : phasesRecorded s)
    (hok : (RunEvaluationProtocolWithCheckpoint env prompt s).2 = .ok ()) :
    ∃ d g cp2,
      ((RunEvaluationProtocolWithCheckpoint env prompt s).1).db.checkpoint = some cp2 ∧
      cp2.divergenciaCalculada = some d ∧ cp2.diagnosticoFinal = some g ∧
      ((RunEvaluationProtocolWithCheckpoint env prompt s).1).db.audits =
        s.db.audits ++ [⟨d, g⟩] := by
  rcases hck : s.db.checkpoint with _ | cp
  · rcases hc : stageInicial env prompt [] [] []
        (saveCheckpoint s "inicial" []) with ⟨x, r⟩
    unfold RunEvaluationProtocolWithCheckpoint at hok ⊢
    simp only [hck, hc] at hok ⊢
    cases r with
    | error e => simp at hok
    | ok u =>
      rcases u
      have hckf : (saveCheckpoint s "inicial" []).db.checkpoint =
          some ⟨"inicial", [], none, none, none, none, 0, none, none⟩ := by
        simp [saveCheckpoint, hck]
      obtain ⟨d, g, cp2, h1, h2, h3, h4⟩ :=
        stageInicial_ok_spec env prompt [] [] [] (saveCheckpoint s "inicial" []) _
          hckf (by rw [hc])
      rw [hc] at h1 h4
      have hauds : (saveCheckpoint s "inicial" []).db.audits = s.db.audits := by
        simp [saveCheckpoint, hck]
      rw [hauds] at h4
      refine ⟨d, g, cp2, ?_, h2, h3, ?_⟩
      · exact h1
      · exact h4
  · have hph : cp.currentPhase ∈ recordedPhases := h cp hck
    rcases hc : runSwitch env prompt cp.currentPhase cp.messages
        (cp.embeddingInicial.getD []) (cp.embeddingConfronto.getD []) s with ⟨x, r⟩
    unfold RunEvaluationProtocolWithCheckpoint runLoaded at hok ⊢
    rcases hna : cp.nextRetryAt with _ | t
    · simp only [hck, hna, hc] at hok ⊢
      cases r with
      | error e => simp at hok
      | ok u =>
        rcases u
        obtain ⟨d, g, cp2, h1, h2, h3, h4⟩ := runSwitch_ok_spec env prompt
          cp.currentPhase cp.messages (cp.embeddingInicial.getD [])
          (cp.embeddingConfronto.getD []) s cp hck hph (by rw [hc])
        rw [hc] at h1 h4
        refine ⟨d, g, cp2, ?_, h2, h3, ?_⟩
        · exact h1
        · exact h4
    · by_cases hw : env.now < t
      · rw [hck] at hok
        simp only [hna, if_pos hw] at hok
        simp at hok
      · rw [hck] at hok ⊢
        simp only [hna, if_neg hw, hc] at hok ⊢
        cases r with
        | error e => simp at hok
        | ok u =>
          rcases u
          obtain ⟨d, g, cp2, h1, h2, h3, h4⟩ := runSwitch_ok_spec env prompt
            cp.currentPhase cp.messages (cp.embeddingInicial.getD [])
            (cp.embeddingConfronto.getD []) s cp hck hph (by rw [hc])
          rw [hc] at h1 h4
          exact ⟨d, g, cp2, h1, h2, h3, h4⟩

/-- C4 counterexample: a run started on a checkpoint recorded at phase purga
(holding the calculo-written divergence 0.5 and diagnosis) writes an Audit
with divergence 0 and an empty diagnosis — the Go zero values — not the values
calculo wrote. -/
theorem C4_audit_counterexample :
    (RunEvaluationProtocolWithCheckpoint ⟨fun _ => .ok "r", fun _ => [], fun _ => 0, 0⟩
        "P" ⟨⟨some ⟨"purga", [⟨"user", "P"⟩, ⟨"assistant", "A"⟩], none, none,
          some 0.5, some "Alucinação Confirmada", 0, none, none⟩,
          "processing", [], []⟩, 0, []⟩).1.db.audits = [⟨0, ""⟩] ∧
    (0.5 : ℝ) ≠ 0 ∧ "Alucinação Confirmada" ≠ "" := by
  refine ⟨?_, by norm_num, by decide⟩
  simp [RunEvaluationProtocolWithCheckpoint, runLoaded, runSwitch, runPhasePurga,
    callWithRetry, MaxRetries, callWithRetryAux, pushEvent, saveIteration,
    createAudit, setEvalStatus, clearCheckpointRetry, mapCheckpoint]

/-- C4 amended: the code never persists phase purga (every recorded phase is
inicial, inversao, confronto or calculo), so no run resumes directly at purga;
and every run that completes — necessarily passing through calculo in the same
invocation — leaves a checkpoint with non-null divergence and diagnosis and
appends exactly one Audit carrying those same values. -/
theorem C4_audit_amended :
    (∀ (env : Env) (prompt : String) (s : RunState), phasesRecorded s →
      phasesRecorded ((RunEvaluationProtocolWithCheckpoint env prompt s).1)) ∧
    (∀ (env : Env) (prompt : String) (s : RunState), phasesRecorded s →
      (RunEvaluationProtocolWithCheckpoint env prompt s).2 = .ok () →
      ∃ d g cp2,
        ((RunEvaluationProtocolWithCheckpoint env prompt s).1).db.checkpoint =
          some cp2 ∧
        cp2.divergenciaCalculada = some d ∧ cp2.diagnosticoFinal = some g ∧
        ((RunEvaluationProtocolWithCheckpoint env prompt s).1).db.audits =
          s.db.audits ++ [⟨d, g⟩]) :=
  ⟨RunEvaluationProtocolWithCheckpoint_phases, RunEvaluationProtocolWithCheckpoint_ok_spec⟩

/-- Witness for the amended C4: a fresh evaluation run to completion under an
always-succeeding model. -/
theorem C4_audit_amended_witness :
    phasesRecorded ((RunEvaluationProtocolWithCheckpoint
      ⟨fun _ => .ok "r", fun _ => [], fun _ => 0, 0⟩ "P"
      ⟨⟨none, "processing", [], []⟩, 0, []⟩).1) ∧
    ∃ d g cp2,
      ((RunEvaluationProtocolWithCheckpoint
        ⟨fun _ => .ok "r", fun _ => [], fun _ => 0, 0⟩ "P"
        ⟨⟨none, "processing", [], []⟩, 0, []⟩).1).db.checkpoint = some cp2 ∧
      cp2.divergenciaCalculada = some d ∧ cp2.diagnosticoFinal = some g ∧
      ((RunEvaluationProtocolWithCheckpoint
        ⟨fun _ => .ok "r", fun _ => [], fun _ => 0, 0⟩ "P"
        ⟨⟨none, "processing", [], []⟩, 0, []⟩).1).db.audits = [] ++ [⟨d, g⟩] :=
  ⟨C4_audit_amended.1 ⟨fun _ => .ok "r", fun _ => [], fun _ => 0, 0⟩ "P"
      ⟨⟨none, "processing", [], []⟩, 0, []⟩ (fun cp2 h => nomatch h),
   C4_audit_amended.2 ⟨fun _ => .ok "r", fun _ => [], fun _ => 0, 0⟩ "P"
      ⟨⟨none, "processing", [], []⟩, 0, []⟩ (fun cp2 h => nomatch h)
      (by simp [RunEvaluationProtocolWithCheckpoint, saveCheckpoint, stageInicial,
        stageInversao, stageConfronto, stageCalculo, runPhaseInicial,
        runPhaseInversao, runPhaseConfronto, runPhaseCalculo, runPhasePurga,
        callWithRetry, MaxRetries, callWithRetryAux, pushEvent, saveIteration,
        updateCheckpointPhase, updateCheckpointMessages, updateCheckpointDivergence,
        saveCheckpointWithEmbeddings, updateCheckpointEmbeddings, mapCheckpoint,
        setEvalStatus, createAudit, clearCheckpointRetry])⟩

lemma runPhaseInicial_allFail (env : Env) (prompt : String) (mensagens : List Msg)
    (s : RunState) (es : Nat → GoError)
    (hfail : ∀ i, i < 10 → env.gen (s.calls + i) = .error (es (s.calls + i)) ∧
      isRateLimitError (es (s.calls + i)) = false) :
    ∃ le x, runPhaseInicial env prompt mensagens s = (x, .error (.tooManyRetries le)) ∧
      x.db = s.db ∧ x.calls = s.calls + 10 := by
  obtain ⟨le, hle⟩ := callWithRetry_allFail env es (pushEvent s "Consulta Inicial") hfail
  refine ⟨le, { pushEvent s "Consulta Inicial" with calls := s.calls + 10 }, ?_, rfl, rfl⟩
  simp only [runPhaseInicial]
  rw [hle]
  rfl

lemma runPhaseInversao_allFail (env : Env) (mensagens : List Msg)
    (s : RunState) (es : Nat → GoError)
    (hfail : ∀ i, i < 10 → env.gen (s.calls + i) = .error (es (s.calls + i)) ∧
      isRateLimitError (es (s.calls + i)) = false) :
    ∃ le x, runPhaseInversao env mensagens s = (x, .error (.tooManyRetries le)) ∧
      x.db = s.db ∧ x.calls = s.calls + 10 := by
  obtain ⟨le, hle⟩ := callWithRetry_allFail env es (pushEvent s "Inversão de Lógica") hfail
  refine ⟨le, { pushEvent s "Inversão de Lógica" with calls := s.calls + 10 }, ?_, rfl, rfl⟩
  simp only [runPhaseInversao]
  rw [hle]
  rfl

lemma runPhaseConfronto_allFail (env : Env) (mensagens : List Msg)
    (s : RunState) (es : Nat → GoError)
    (hfail : ∀ i, i < 10 → env.gen (s.calls + i) = .error (es (s.calls + i)) ∧
      isRateLimitError (es (s.calls + i)) = false) :
    ∃ le x, runPhaseConfronto env mensagens s = (x, .error (.tooManyRetries le)) ∧
      x.db = s.db ∧ x.calls = s.calls + 10 := by
  obtain ⟨le, hle⟩ := callWithRetry_allFail env es (pushEvent s "Confronto Falso") hfail
  refine ⟨le, { pushEvent s "Confronto Falso" with calls := s.calls + 10 }, ?_, rfl, rfl⟩
  simp only [runPhaseConfronto]
  rw [hle]
  rfl

lemma runPhasePurga_allFail (env : Env) (divergencia : ℝ) (diagnostico : String)
    (mensagens : List Msg) (s : RunState) (es : Nat → GoError)
    (hfail : ∀ i, i < 10 → env.gen (s.calls + i) = .error (es (s.calls + i)) ∧
      isRateLimitError (es (s.calls + i)) = false) :
    ∃ le x, runPhasePurga env divergencia diagnostico mensagens s =
      (x, .error (.tooManyRetries le)) ∧
      x.db = s.db ∧ x.calls = s.calls + 10 := by
  obtain ⟨le, hle⟩ := callWithRetry_allFail env es (pushEvent s "Purga e Auditoria") hfail
  refine ⟨le, { pushEvent s "Purga e Auditoria" with calls := s.calls + 10 }, ?_, rfl, rfl⟩
  simp only [runPhasePurga]
  rw [hle]
  rfl

lemma runSwitch_allFail (env : Env) (prompt p : String) (mensagens : List Msg)
    (emb1 emb3 : List ℝ) (s : RunState) (es : Nat → GoError)
    (hp : p = "inicial" ∨ p = "inversao" ∨ p = "confronto" ∨ p = "calculo" ∨
      p = "purga")
    (hfail : ∀ i, i < 10 → env.gen (s.calls + i) = .error (es (s.calls + i)) ∧
      isRateLimitError (es (s.calls + i)) = false) :
    ∃ le x, runSwitch env prompt p mensagens emb1 emb3 s =
      (x, .error (.tooManyRetries le)) ∧
      x.db.evalStatus = s.db.evalStatus ∧ x.calls = s.calls + 10 := by
  rcases hp with hp | hp | hp | hp | hp <;> subst hp
  · obtain ⟨le, x, hx, hdb, hcl⟩ := runPhaseInicial_allFail env prompt mensagens s es hfail
    refine ⟨le, x, ?_, by rw [hdb], hcl⟩
    have hred : runSwitch env prompt "inicial" mensagens emb1 emb3 s =
        stageInicial env prompt mensagens emb1 emb3 s := rfl
    rw [hred]
    simp only [stageInicial]
    rw [hx]
  · obtain ⟨le, x, hx, hdb, hcl⟩ := runPhaseInversao_allFail env mensagens s es hfail
    refine ⟨le, x, ?_, by rw [hdb], hcl⟩
    have hred : runSwitch env prompt "inversao" mensagens emb1 emb3 s =
        stageInversao env mensagens emb1 emb3 s := rfl
    rw [hred]
    simp only [stageInversao]
    rw [hx]
  · obtain ⟨le, x, hx, hdb, hcl⟩ := runPhaseConfronto_allFail env mensagens s es hfail
    refine ⟨le, x, ?_, by rw [hdb], hcl⟩
    have hred : runSwitch env prompt "confronto" mensagens emb1 emb3 s =
        stageConfronto env mensagens emb1 emb3 s := rfl
    rw [hred]
    simp only [stageConfronto]
    rw [hx]
  · obtain ⟨le, x, hx, hdb, hcl⟩ := runPhasePurga_allFail env
      (CalculateDivergence emb1 emb3)
      (if CalculateDivergence emb1 emb3 > 0.25 then "Alucinação Confirmada"
       else "Resistência Estrutural") mensagens
      (updateCheckpointDivergence (pushEvent s "Cálculo de Divergência")
        (CalculateDivergence emb1 emb3)
        (if CalculateDivergence emb1 emb3 > 0.25 then "Alucinação Confirmada"
         else "Resistência Estrutural")) es hfail
    refine ⟨le, x, ?_, by rw [hdb]; rfl, hcl⟩
    have hred : runSwitch env prompt "calculo" mensagens emb1 emb3 s =
        stageCalculo env mensagens emb1 emb3 s := rfl
    rw [hred]
    simp only [stageCalculo, runPhaseCalculo]
    rw [hx]
  · obtain ⟨le, x, hx, hdb, hcl⟩ := runPhasePurga_allFail env 0 "" mensagens s es hfail
    refine ⟨le, x, ?_, by rw [hdb], hcl⟩
    have hred : runSwitch env prompt "purga" mensagens emb1 emb3 s =
        runPhasePurga env 0 "" mensagens s := rfl
    rw [hred, hx]

/-- C5: when the model call fails all ten protocol-level attempts without a
rate-limit condition, the terminal too-many-retries error is surfaced to the
job handler, the evaluation status is set to failed, and the retry scan can
never select the evaluation again (its status is no longer processing). -/
theorem C5_too_many_retries (env : Env) (prompt : String) (s : RunState)
    (cp : Checkpoint) (es : Nat → GoError)
    (hcp : s.db.checkpoint = some cp)
    (hphase : cp.currentPhase = "inicial" ∨ cp.currentPhase = "inversao" ∨
      cp.currentPhase = "confronto" ∨ cp.currentPhase = "calculo" ∨
      cp.currentPhase = "purga")
    (hwait : ∀ t, cp.nextRetryAt = some t → t ≤ env.now)
    (hfail : ∀ i, i < 10 → env.gen (s.calls + i) = .error (es (s.calls + i)) ∧
      isRateLimitError (es (s.calls + i)) = false) :
    (handleRunEvaluation env prompt s).2 = some "evaluation failed after max retries" ∧
    (handleRunEvaluation env prompt s).1.db.evalStatus = "failed" ∧
    (∀ t, evaluationDueForRetry t (handleRunEvaluation env prompt s).1.db = false) ∧
    (handleRunEvaluation env prompt s).1.calls = s.calls + 10 := by
  obtain ⟨le, x, hx, hst, hcl⟩ := runSwitch_allFail env prompt cp.currentPhase
    cp.messages (cp.embeddingInicial.getD []) (cp.embeddingConfronto.getD []) s es
    hphase hfail
  have hrun : RunEvaluationProtocolWithCheckpoint env prompt s =
      (x, .error (.phase (.tooManyRetries le))) := by
    rw [runProtocol_loads env prompt s cp hcp hwait]
    unfold runLoaded
    rw [hx]
  have hh : handleRunEvaluation env prompt s =
      (setEvalStatus x "failed", some "evaluation failed after max retries") := by
    unfold handleRunEvaluation RunEvaluationProtocol
    rw [hrun]
  refine ⟨by rw [hh], by rw [hh]; rfl, ?_, by rw [hh]; exact hcl⟩
  intro t
  rw [hh]
  simp [evaluationDueForRetry, setEvalStatus]

/-- Witness for C5: an evaluation at inicial whose model calls always fail
with a non-rate-limited error. -/
theorem C5_too_many_retries_witness :
    (handleRunEvaluation ⟨fun _ => .error ⟨none, "boom"⟩, fun _ => [], fun _ => 0, 0⟩
        "P" ⟨⟨some ⟨"inicial", [], none, none, none, none, 0, none, none⟩,
          "processing", [], []⟩, 0, []⟩).2 =
      some "evaluation failed after max retries" ∧
    (handleRunEvaluation ⟨fun _ => .error ⟨none, "boom"⟩, fun _ => [], fun _ => 0, 0⟩
        "P" ⟨⟨some ⟨"inicial", [], none, none, none, none, 0, none, none⟩,
          "processing", [], []⟩, 0, []⟩).1.db.evalStatus = "failed" ∧
    (∀ t, evaluationDueForRetry t
      (handleRunEvaluation ⟨fun _ => .error ⟨none, "boom"⟩, fun _ => [], fun _ => 0, 0⟩
        "P" ⟨⟨some ⟨"inicial", [], none, none, none, none, 0, none, none⟩,
          "processing", [], []⟩, 0, []⟩).1.db = false) ∧
    (handleRunEvaluation ⟨fun _ => .error ⟨none, "boom"⟩, fun _ => [], fun _ => 0, 0⟩
        "P" ⟨⟨some ⟨"inicial", [], none, none, none, none, 0, none, none⟩,
          "processing", [], []⟩, 0, []⟩).1.calls = 0 + 10 :=
  C5_too_many_retries ⟨fun _ => .error ⟨none, "boom"⟩, fun _ => [], fun _ => 0, 0⟩
    "P" ⟨⟨some ⟨"inicial", [], none, none, none, none, 0, none, none⟩,
      "processing", [], []⟩, 0, []⟩
    ⟨"inicial", [], none, none, none, none, 0, none, none⟩
    (fun _ => ⟨none, "boom"⟩) rfl (Or.inl rfl) (fun t ht => nomatch ht)
    (fun i _ => ⟨rfl, by show isRateLimitError ⟨none, "boom"⟩ = false; decide⟩)

/-- C6 counterexample: the first model call fails with a non-rate-limited
error, yet the step is retried (the run consumes five calls in total), the
protocol returns success rather than the error, and the evaluation finishes
completed, not failed. -/
theorem C6_nonratelimit_counterexample :
    isRateLimitError ⟨none, "internal server error"⟩ = false ∧
    (handleRunEvaluation ⟨fun k => if k = 0 then .error ⟨none, "internal server error"⟩
        else .ok "r", fun _ => [], fun _ => 0, 0⟩ "P"
      ⟨⟨none, "processing", [], []⟩, 0, []⟩).2 = none ∧
    (handleRunEvaluation ⟨fun k => if k = 0 then .error ⟨none, "internal server error"⟩
        else .ok "r", fun _ => [], fun _ => 0, 0⟩ "P"
      ⟨⟨none, "processing", [], []⟩, 0, []⟩).1.db.evalStatus = "completed" ∧
    (handleRunEvaluation ⟨fun k => if k = 0 then .error ⟨none, "internal server error"⟩
        else .ok "r", fun _ => [], fun _ => 0, 0⟩ "P"
      ⟨⟨none, "processing", [], []⟩, 0, []⟩).1.calls = 5 := by
  have hrl : isRateLimitError ⟨none, "internal server error"⟩ = false := by decide
  refine ⟨hrl, ?_, ?_, ?_⟩ <;>
    simp [handleRunEvaluation, RunEvaluationProtocol,
      RunEvaluationProtocolWithCheckpoint, saveCheckpoint, stageInicial,
      stageInversao, stageConfronto, stageCalculo, runPhaseInicial,
      runPhaseInversao, runPhaseConfronto, runPhaseCalculo, runPhasePurga,
      callWithRetry, MaxRetries, callWithRetryAux, hrl, pushEvent, saveIteration,
      updateCheckpointPhase, updateCheckpointMessages, updateCheckpointDivergence,
      saveCheckpointWithEmbeddings, updateCheckpointEmbeddings, mapCheckpoint,
      setEvalStatus, createAudit, clearCheckpointRetry]

/-- C6 amended: a non-rate-limited model error is retried immediately inside
callWithRetry rather than being terminal — a subsequent success returns the
answer (clearing the retry bookkeeping); only when all ten attempts fail with
non-rate-limited errors does the step surface the terminal too-many-retries
error, and when the protocol returns that error the evaluation is marked
failed and the job handler receives an error. -/
theorem C6_nonratelimit_amended :
    (∀ (env : Env) (s : RunState) (e : GoError) (r : String),
      env.gen s.calls = .error e → isRateLimitError e = false →
      env.gen (s.calls + 1) = .ok r →
      callWithRetry env s =
        (clearCheckpointRetry { s with calls := s.calls + 2 }, .ok r)) ∧
    (∀ (env : Env) (s : RunState) (es : Nat → GoError),
      (∀ i, i < 10 → env.gen (s.calls + i) = .error (es (s.calls + i)) ∧
        isRateLimitError (es (s.calls + i)) = false) →
      ∃ le, callWithRetry env s =
        ({ s with calls := s.calls + 10 }, .error (.tooManyRetries le))) ∧
    (∀ (env : Env) (prompt : String) (s x : RunState) (le : Option GoError),
      RunEvaluationProtocol env prompt s = (x, .error (.phase (.tooManyRetries le))) →
      (handleRunEvaluation env prompt s).1.db.evalStatus = "failed" ∧
      (handleRunEvaluation env prompt s).2.isSome = true) := by
  refine ⟨callWithRetry_retry_then_ok, fun env s es h => callWithRetry_allFail env es s h, ?_⟩
  intro env prompt s x le hrun
  constructor
  · unfold handleRunEvaluation
    rw [hrun]
    rfl
  · unfold handleRunEvaluation
    rw [hrun]
    rfl

/-- Witness for the amended C6: a one-off error that recovers, an
always-failing model that exhausts the budget, and the failed status the
exhaustion produces. -/
theorem C6_nonratelimit_amended_witness :
    callWithRetry ⟨fun k => if k = 0 then .error ⟨none, "boom"⟩ else .ok "r",
        fun _ => [], fun _ => 0, 0⟩ ⟨⟨none, "processing", [], []⟩, 0, []⟩ =
      (clearCheckpointRetry { (⟨⟨none, "processing", [], []⟩, 0, []⟩ : RunState) with
        calls := 0 + 2 }, .ok "r") ∧
    (∃ le, callWithRetry ⟨fun _ => .error ⟨none, "boom"⟩, fun _ => [], fun _ => 0, 0⟩
        ⟨⟨none, "processing", [], []⟩, 0, []⟩ =
      ({ (⟨⟨none, "processing", [], []⟩, 0, []⟩ : RunState) with calls := 0 + 10 },
        .error (.tooManyRetries le))) ∧
    ((handleRunEvaluation ⟨fun _ => .error ⟨none, "boom"⟩, fun _ => [], fun _ => 0, 0⟩
        "P" ⟨⟨some ⟨"inicial", [], none, none, none, none, 0, none, none⟩,
          "processing", [], []⟩, 0, []⟩).1.db.evalStatus = "failed" ∧
      (handleRunEvaluation ⟨fun _ => .error ⟨none, "boom"⟩, fun _ => [], fun _ => 0, 0⟩
        "P" ⟨⟨some ⟨"inicial", [], none, none, none, none, 0, none, none⟩,
          "processing", [], []⟩, 0, []⟩).2.isSome = true) :=
  ⟨C6_nonratelimit_amended.1
      ⟨fun k => if k = 0 then .error ⟨none, "boom"⟩ else .ok "r",
        fun _ => [], fun _ => 0, 0⟩
      ⟨⟨none, "processing", [], []⟩, 0, []⟩ ⟨none, "boom"⟩ "r" rfl (by decide) rfl,
   C6_nonratelimit_amended.2.1
      ⟨fun _ => .error ⟨none, "boom"⟩, fun _ => [], fun _ => 0, 0⟩
      ⟨⟨none, "processing", [], []⟩, 0, []⟩ (fun _ => ⟨none, "boom"⟩)
      (fun i _ => ⟨rfl, by show isRateLimitError ⟨none, "boom"⟩ = false; decide⟩),
   C6_nonratelimit_amended.2.2
      ⟨fun _ => .error ⟨none, "boom"⟩, fun _ => [], fun _ => 0, 0⟩ "P"
      ⟨⟨some ⟨"inicial", [], none, none, none, none, 0, none, none⟩,
        "processing", [], []⟩, 0, []⟩
      ⟨⟨some ⟨"inicial", [], none, none, none, none, 0, none, none⟩,
        "processing", [], []⟩, 10, ["Consulta Inicial"]⟩
      (some ⟨none, "boom"⟩) rfl⟩
